import Mathlib

/-!
# tcti-tabrmd: the framed transport engine

A shallow embedding of `src/tcti-tabrmd.c`.  The C functions become pure
functions that pass the context, the caller's buffers and the outside world
(the channel to the peer and a trace of the I/O calls made) explicitly.
-/

namespace TctiTabrmd

/-! ## Machine types and constants -/

/-- One `uint8_t`. -/
abbrev Byte := Fin 256

/-- Modulus of `size_t` arithmetic (LP64). -/
def SIZE_T : Nat := 2 ^ 64

/-- Modelled from the spec: `TPM_HEADER_SIZE` is declared in `tpm2-header.h`, which is not
under `src/`; the spec fixes the response header at 10 bytes. -/
def TPM_HEADER_SIZE : Nat := 10

/-- The `errno` value `EIO` (Linux). -/
def EIO : Int := 5

/-- The `errno` value `EAGAIN`, equal to `EWOULDBLOCK` (Linux). -/
def EAGAIN : Int := 11

/-- The `errno` value `EPROTO` (Linux). -/
def EPROTO : Int := 71

/-- The TSS2 constant `TSS2_TCTI_TIMEOUT_BLOCK`. -/
def TSS2_TCTI_TIMEOUT_BLOCK : Int := -1

/-- The response codes the transport returns.  `peer code` is a code handed through
unchanged from the peer's reply or from a `GError` of a control call. -/
inductive TSS2_RC
  | SUCCESS
  | BAD_REFERENCE
  | BAD_VALUE
  | BAD_CONTEXT
  | BAD_SEQUENCE
  | IO_ERROR
  | NO_CONNECTION
  | GENERAL_FAILURE
  | TRY_AGAIN
  | INSUFFICIENT_BUFFER
  | MALFORMED_RESPONSE
  | peer (code : Nat)
  deriving DecidableEq, Repr

/-- The states `TABRMD_STATE_TRANSMIT`, `TABRMD_STATE_RECEIVE`, `TABRMD_STATE_FINAL`. -/
inductive tcti_tabrmd_state
  | TRANSMIT
  | RECEIVE
  | FINAL
  deriving DecidableEq, Repr

/-- Declarations of `tcti-tabrmd-priv.h` (not under `src/`) whose values the code only
compares or stores: they are parameters of the embedding. -/
structure Decls where
  TSS2_TCTI_TABRMD_MAGIC : Nat
  TSS2_TCTI_TABRMD_VERSION : Nat
  sizeof_context : Nat
  deriving DecidableEq, Repr

/-- The parsed response header `{tag, size, code}`. -/
structure tpm_header where
  tag : Nat
  size : Nat
  code : Nat
  deriving DecidableEq, Repr

/-- The functions `init_tcti_data` stores in the operation table. -/
inductive tcti_fn
  | tss2_tcti_tabrmd_transmit
  | tss2_tcti_tabrmd_receive
  | tss2_tcti_tabrmd_finalize
  | tss2_tcti_tabrmd_cancel
  | tss2_tcti_tabrmd_get_poll_handles
  | tss2_tcti_tabrmd_set_locality
  deriving DecidableEq, Repr

/-- The memory of a `TSS2_TCTI_TABRMD_CONTEXT`.  A pointer field is `none` when it is NULL. -/
structure Ctx where
  magic : Nat
  version : Nat
  transmit : Option tcti_fn
  receive : Option tcti_fn
  finalize : Option tcti_fn
  cancel : Option tcti_fn
  get_poll_handles : Option tcti_fn
  set_locality : Option tcti_fn
  state : tcti_tabrmd_state
  fd : Int
  iostream : Option Nat
  proxy : Option Nat
  id : Nat
  index : Nat
  header_buf : List Byte
  header : tpm_header
  deriving DecidableEq, Repr

/-! ## The outside world -/

/-- What a read finds once the bytes that are immediately available are used up:
no data yet, the peer closed, or a hard error with its (positive) `errno`. -/
inductive read_end
  | would_block
  | eof
  | fault (errno : ℕ+)
  deriving DecidableEq

/-- The calls made to the outside world, in order. -/
inductive IOEvent
  | poll (fd : Int) (timeout : Int)
  | read (index : Nat) (count : Nat)
  | write (fd : Int) (size : Nat)
  | cancel_call (id : Nat)
  | set_locality_call (id : Nat) (locality : Nat)
  | close_stream (stream : Nat)
  | close_fd (fd : Int)
  deriving DecidableEq

/-- What the peer and the operating system will answer to the next calls. -/
structure Peer where
  poll_ret : Int
  poll_errno : ℕ+
  avail : List Byte
  on_empty : read_end
  write_ret : Int
  ctl_ok : Bool
  ctl_rc : Nat
  ctl_err : Nat
  deriving DecidableEq

/-- The outside world: the peer's answers and the trace of calls made so far. -/
structure World extends Peer where
  trace : List IOEvent
  deriving DecidableEq

/-! ## Byte buffers -/

/-- Store `data` into `buf` from offset `off` on, as `memcpy (&buf[off], data, len)` does.
A store that runs past the end of `buf` lengthens the list, so it stays visible. -/
def writeAt (buf : List Byte) (off : Nat) (data : List Byte) : List Byte :=
  buf.take off ++ List.replicate (off - buf.length) 0 ++ data ++ buf.drop (off + data.length)

/-- Big-endian value of a byte string. -/
def be (bs : List Byte) : Nat :=
  bs.foldl (fun acc b => acc * 256 + b.val) 0

/-- Modelled from the spec: `get_response_tag` of `tpm2-header.c` is not under `src/`; the
spec places the tag at offset 0, 2 bytes, big-endian. -/
def get_response_tag (buf : List Byte) : Nat :=
  be ((buf.drop 0).take 2)

/-- Modelled from the spec: `get_response_size` of `tpm2-header.c` is not under `src/`; the
spec places the size at offset 2, 4 bytes, big-endian. -/
def get_response_size (buf : List Byte) : Nat :=
  be ((buf.drop 2).take 4)

/-- Modelled from the spec: `get_response_code` of `tpm2-header.c` is not under `src/`; the
spec places the response code at offset 6, 4 bytes, big-endian. -/
def get_response_code (buf : List Byte) : Nat :=
  be ((buf.drop 6).take 4)

/-! ## Byte-level I/O -/

/-- The value `read_data` returns when the available bytes ran out before `count` bytes
were read: `EAGAIN`, `-1` for EOF, or the `errno` of the failed read. -/
def read_end.code : read_end → Int
  | .would_block => EAGAIN
  | .eof => -1
  | .fault e => ((e : Nat) : Int)

/-- Result of `read_data`: the return value, the advanced `*index`, the buffer, the world. -/
structure read_result where
  ret : Int
  index : Nat
  buf : List Byte
  world : World

/-- Modelled from the spec: `read_data` of `util.c` is not under `src/`.  It reads as many
bytes as are immediately available, up to `count`, into `buf` at `*index`, advances
`*index` by the bytes read, and returns 0 when it read all `count` bytes (the caller's
comment: "We got all the bytes we asked for"), else would-block (`EAGAIN`), EOF (`-1`)
or the `errno` of a hard error.  Its descriptor and stream arguments name the one channel
of the context, which the world holds. -/
def read_data (w : World) (index : Nat) (buf : List Byte) (count : Nat) : read_result :=
  let w1 : World := { w with trace := w.trace ++ [IOEvent.read index count] }
  if count ≤ w.avail.length then
    { ret := 0
      index := (index + count) % SIZE_T
      buf := writeAt buf index (w.avail.take count)
      world := { w1 with avail := w.avail.drop count } }
  else
    { ret := w.on_empty.code
      index := (index + w.avail.length) % SIZE_T
      buf := writeAt buf index w.avail
      world := { w1 with avail := [] } }

/-- The function `errno_to_tcti_rc`: maps errno values to TCTI RCs. -/
def errno_to_tcti_rc (error_number : Int) : TSS2_RC :=
  if error_number = -1 then TSS2_RC.NO_CONNECTION
  else if error_number = 0 then TSS2_RC.SUCCESS
  else if error_number = EPROTO then TSS2_RC.GENERAL_FAILURE
  else if error_number = EAGAIN then TSS2_RC.TRY_AGAIN
  else if error_number = EIO then TSS2_RC.IO_ERROR
  else TSS2_RC.GENERAL_FAILURE

/-- The function `tcti_tabrmd_poll`: `-1` on timeout, `0` when data is ready, `errno` on
error.  `w.poll_ret` is what `poll` returned (after `TEMP_FAILURE_RETRY`). -/
def tcti_tabrmd_poll (w : World) (fd : Int) (timeout : Int) : Int × World :=
  let w1 : World := { w with trace := w.trace ++ [IOEvent.poll fd timeout] }
  if w.poll_ret = -1 then (((w.poll_errno : Nat) : Int), w1)
  else if w.poll_ret = 0 then (-1, w1)
  else (0, w1)

/-! ## transmit -/

/-- Result of a call that may change the context and the world. -/
structure call_result where
  rc : TSS2_RC
  context : Option Ctx
  world : World

/-- The function `tss2_tcti_tabrmd_transmit`.  `w.write_ret` is what `write_all` returns;
the comparison `write_ret == size` is made in `size_t`. -/
def tss2_tcti_tabrmd_transmit (K : Decls) (w : World) (context : Option Ctx) (size : Nat)
    (command : Option (List Byte)) : call_result :=
  match context, command with
  | some ctx, some _ =>
    if size = 0 then ⟨TSS2_RC.BAD_VALUE, context, w⟩
    else if ctx.magic ≠ K.TSS2_TCTI_TABRMD_MAGIC ∨ ctx.version ≠ K.TSS2_TCTI_TABRMD_VERSION then
      ⟨TSS2_RC.BAD_CONTEXT, context, w⟩
    else if ctx.state ≠ tcti_tabrmd_state.TRANSMIT then ⟨TSS2_RC.BAD_SEQUENCE, context, w⟩
    else
      let w1 : World := { w with trace := w.trace ++ [IOEvent.write ctx.fd size] }
      let write_ret := w.write_ret
      if write_ret = -1 then ⟨TSS2_RC.IO_ERROR, context, w1⟩
      else if write_ret = 0 then ⟨TSS2_RC.NO_CONNECTION, context, w1⟩
      else if write_ret % (SIZE_T : Int) = (size : Int) then
        ⟨TSS2_RC.SUCCESS, some { ctx with state := tcti_tabrmd_state.RECEIVE }, w1⟩
      else ⟨TSS2_RC.GENERAL_FAILURE, context, w1⟩
  | _, _ => ⟨TSS2_RC.BAD_REFERENCE, context, w⟩

/-! ## receive -/

/-- Result of `tss2_tcti_tabrmd_receive`: the return code, the context, the caller's
`*size` and `response` buffer, and the world. -/
structure receive_result where
  rc : TSS2_RC
  context : Option Ctx
  size : Option Nat
  response : Option (List Byte)
  world : World

/-- Lines 216-234 of `tss2_tcti_tabrmd_receive`: make sure the response header is there.
The first component is the return code when the function returns here. -/
def receive_header (w : World) (ctx : Ctx) : Option TSS2_RC × Ctx × World :=
  if ctx.index < TPM_HEADER_SIZE then
    let r := read_data w ctx.index ctx.header_buf (TPM_HEADER_SIZE - ctx.index)
    let ctx1 : Ctx := { ctx with index := r.index, header_buf := r.buf }
    if r.ret ≠ 0 then (some (errno_to_tcti_rc r.ret), ctx1, r.world)
    else if ctx1.index = TPM_HEADER_SIZE then
      let ctx2 : Ctx := { ctx1 with header :=
        { tag := get_response_tag ctx1.header_buf
          size := get_response_size ctx1.header_buf
          code := get_response_code ctx1.header_buf } }
      if ctx2.header.size < TPM_HEADER_SIZE then
        (some TSS2_RC.MALFORMED_RESPONSE, { ctx2 with state := tcti_tabrmd_state.TRANSMIT }, r.world)
      else (none, ctx2, r.world)
    else (none, ctx1, r.world)
  else (none, ctx, w)

/-- Lines 236-262 of `tss2_tcti_tabrmd_receive`: answer the size query, or copy the header
and read the body.  The byte count `header.size - index` is computed in `size_t`. -/
def receive_body (w : World) (ctx : Ctx) (sz : Nat) (response : Option (List Byte)) :
    receive_result :=
  match response with
  | none => ⟨TSS2_RC.SUCCESS, some ctx, some ctx.header.size, none, w⟩
  | some buf =>
    let buf1 :=
      if ctx.index = TPM_HEADER_SIZE then writeAt buf 0 (ctx.header_buf.take TPM_HEADER_SIZE)
      else buf
    if ctx.header.size = TPM_HEADER_SIZE then
      ⟨TSS2_RC.SUCCESS, some { ctx with index := 0, state := tcti_tabrmd_state.TRANSMIT },
        some sz, some buf1, w⟩
    else if sz < ctx.header.size then
      ⟨TSS2_RC.INSUFFICIENT_BUFFER, some ctx, some sz, some buf1, w⟩
    else
      let r := read_data w ctx.index buf1 ((ctx.header.size + SIZE_T - ctx.index) % SIZE_T)
      if r.ret = 0 then
        ⟨errno_to_tcti_rc r.ret,
          some { ctx with index := 0, state := tcti_tabrmd_state.TRANSMIT },
          some r.index, some r.buf, r.world⟩
      else
        ⟨errno_to_tcti_rc r.ret, some { ctx with index := r.index }, some sz, some r.buf, r.world⟩

/-- The function `tss2_tcti_tabrmd_receive`.  `context`, `size` and `response` are `none`
for a NULL pointer; `size` holds `*size`. -/
def tss2_tcti_tabrmd_receive (K : Decls) (w : World) (context : Option Ctx)
    (size : Option Nat) (response : Option (List Byte)) (timeout : Int) : receive_result :=
  match context, size with
  | some ctx, some sz =>
    if response = none ∧ sz ≠ 0 then ⟨TSS2_RC.BAD_VALUE, context, size, response, w⟩
    else if ctx.magic ≠ K.TSS2_TCTI_TABRMD_MAGIC ∨ ctx.version ≠ K.TSS2_TCTI_TABRMD_VERSION then
      ⟨TSS2_RC.BAD_CONTEXT, context, size, response, w⟩
    else if ctx.state ≠ tcti_tabrmd_state.RECEIVE then
      ⟨TSS2_RC.BAD_SEQUENCE, context, size, response, w⟩
    else if timeout < TSS2_TCTI_TIMEOUT_BLOCK then
      ⟨TSS2_RC.BAD_VALUE, context, size, response, w⟩
    else if response = none ∧ sz ≠ 0 then
      ⟨TSS2_RC.BAD_REFERENCE, context, size, response, w⟩
    else if response ≠ none ∧ sz < TPM_HEADER_SIZE then
      ⟨TSS2_RC.INSUFFICIENT_BUFFER, context, size, response, w⟩
    else
      let p := tcti_tabrmd_poll w ctx.fd timeout
      if p.1 = -1 then ⟨TSS2_RC.TRY_AGAIN, context, size, response, p.2⟩
      else if p.1 ≠ 0 then ⟨errno_to_tcti_rc p.1, context, size, response, p.2⟩
      else
        let h := receive_header p.2 ctx
        match h.1 with
        | some rc => ⟨rc, some h.2.1, size, response, h.2.2⟩
        | none => receive_body h.2.2 h.2.1 sz response
  | _, _ => ⟨TSS2_RC.BAD_REFERENCE, context, size, response, w⟩

/-! ## finalize, cancel, set_locality -/

/-- The function `tss2_tcti_tabrmd_finalize`: closes the stream when there is one, else the
descriptor when it is not 0, and moves the state to FINAL. -/
def tss2_tcti_tabrmd_finalize (w : World) (context : Option Ctx) : Option Ctx × World :=
  match context with
  | none => (none, w)
  | some ctx =>
    match ctx.iostream with
    | some s =>
      (some { ctx with state := tcti_tabrmd_state.FINAL },
        { w with trace := w.trace ++ [IOEvent.close_stream s] })
    | none =>
      if ctx.fd ≠ 0 then
        (some { ctx with fd := 0, state := tcti_tabrmd_state.FINAL },
          { w with trace := w.trace ++ [IOEvent.close_fd ctx.fd] })
      else (some { ctx with state := tcti_tabrmd_state.FINAL }, w)

/-- The function `tss2_tcti_tabrmd_cancel`.  `w.ctl_ok` is what the control call returns,
`w.ctl_rc` the code of the peer's reply, `w.ctl_err` the code of the `GError`. -/
def tss2_tcti_tabrmd_cancel (w : World) (context : Option Ctx) : call_result :=
  match context with
  | none => ⟨TSS2_RC.BAD_CONTEXT, context, w⟩
  | some ctx =>
    if ctx.state ≠ tcti_tabrmd_state.RECEIVE then ⟨TSS2_RC.BAD_SEQUENCE, context, w⟩
    else
      let w1 : World := { w with trace := w.trace ++ [IOEvent.cancel_call ctx.id] }
      if w.ctl_ok = false then ⟨TSS2_RC.peer w.ctl_err, context, w1⟩
      else ⟨TSS2_RC.peer w.ctl_rc, context, w1⟩

/-- The function `tss2_tcti_tabrmd_set_locality`. -/
def tss2_tcti_tabrmd_set_locality (w : World) (context : Option Ctx) (locality : Nat) :
    call_result :=
  match context with
  | none => ⟨TSS2_RC.BAD_CONTEXT, context, w⟩
  | some ctx =>
    if ctx.state ≠ tcti_tabrmd_state.TRANSMIT then ⟨TSS2_RC.BAD_SEQUENCE, context, w⟩
    else
      let w1 : World :=
        { w with trace := w.trace ++ [IOEvent.set_locality_call ctx.id locality] }
      if w.ctl_ok = false then ⟨TSS2_RC.peer w.ctl_err, context, w1⟩
      else ⟨TSS2_RC.peer w.ctl_rc, context, w1⟩

/-! ## Connection establishment -/

/-- The function `init_tcti_data`: sets the magic, the version, the state and the six
function pointers; every other field is left as the caller's memory had it. -/
def init_tcti_data (K : Decls) (ctx : Ctx) : Ctx :=
  { ctx with
    magic := K.TSS2_TCTI_TABRMD_MAGIC
    version := K.TSS2_TCTI_TABRMD_VERSION
    state := tcti_tabrmd_state.TRANSMIT
    transmit := some tcti_fn.tss2_tcti_tabrmd_transmit
    receive := some tcti_fn.tss2_tcti_tabrmd_receive
    finalize := some tcti_fn.tss2_tcti_tabrmd_finalize
    cancel := some tcti_fn.tss2_tcti_tabrmd_cancel
    get_poll_handles := some tcti_fn.tss2_tcti_tabrmd_get_poll_handles
    set_locality := some tcti_fn.tss2_tcti_tabrmd_set_locality }

/-- The bus scopes of `TCTI_TABRMD_DBUS_TYPE`; `other` is any value that is neither. -/
inductive TCTI_TABRMD_DBUS_TYPE
  | SESSION
  | SYSTEM
  | other (v : Nat)
  deriving DecidableEq

/-- What the bus answers during `tss2_tcti_tabrmd_init_full`: the proxy object (`none` for
NULL), the reply of `CreateConnection` (`none` when the call failed, else the id), the
descriptor list handed back (each entry is what `g_unix_fd_list_get` gives for it, `-1`
on error), and what `set_flags` returns. -/
structure BrokerEnv where
  proxy : Option Nat
  reply : Option Nat
  fd_list : Option (List Int)
  set_flags_ret : Int
  deriving DecidableEq

/-- Result of an initialisation function.  `rc = none` means that `g_error` aborted the
process; `context` is the caller's context memory as the function left it. -/
structure init_result where
  rc : Option TSS2_RC
  context : Option Ctx
  size : Option Nat
  deriving DecidableEq

/-- The function `tss2_tcti_tabrmd_init_full`. -/
def tss2_tcti_tabrmd_init_full (K : Decls) (e : BrokerEnv) (context : Option Ctx)
    (size : Option Nat) (bus_type : TCTI_TABRMD_DBUS_TYPE) (bus_name : Option String) :
    init_result :=
  match context with
  | none =>
    match size with
    | none => ⟨some TSS2_RC.BAD_VALUE, context, size⟩
    | some _ => ⟨some TSS2_RC.SUCCESS, context, some K.sizeof_context⟩
  | some ctx =>
    if bus_name = none then ⟨some TSS2_RC.BAD_VALUE, context, size⟩
    else
      match bus_type with
      | .other _ => ⟨some TSS2_RC.BAD_VALUE, context, size⟩
      | _ =>
        let ctx1 : Ctx := { init_tcti_data K ctx with proxy := e.proxy }
        if ctx1.proxy = none then ⟨none, some ctx1, size⟩
        else
          match e.reply with
          | none => ⟨some TSS2_RC.NO_CONNECTION, some ctx1, size⟩
          | some id =>
            match e.fd_list with
            | none => ⟨none, some ctx1, size⟩
            | some fds =>
              if fds.length ≠ 1 then ⟨none, some ctx1, size⟩
              else
                let fd := fds.headD (-1)
                if fd = -1 then ⟨none, some ctx1, size⟩
                else if e.set_flags_ret = -1 then ⟨none, some ctx1, size⟩
                else ⟨some TSS2_RC.SUCCESS, some { ctx1 with fd := fd, id := id }, size⟩

/-- The errors `tcti_tabrmd_call_create_connection_tls` leaves in the caller's slot. -/
inductive GErr
  | socket_new
  | parse
  | no_more_addresses
  | enumerate
  | local_address
  | tls_new
  | handshake
  deriving DecidableEq

/-- What the network answers during `tcti_tabrmd_call_create_connection_tls`: the new
socket (its descriptor, `none` when `g_socket_new` fails), whether the address parses,
the candidate addresses in enumeration order each with whether connecting to it
succeeds, whether the enumerator ends with an error of its own, the hash of the local
address (`none` when it cannot be had), the plain connection object, the TLS connection
object (`none` when it cannot be created) and whether the handshake succeeds. -/
structure NetEnv where
  socket : Option Int
  parses : Bool
  candidates : List (Nat × Bool)
  enum_error : Bool
  local_hash : Option Nat
  plain_conn : Option Nat
  tls_conn : Option Nat
  handshake : Bool
  deriving DecidableEq

/-- The out-parameters and result of `tcti_tabrmd_call_create_connection_tls`, with the
address it connected to and the addresses it tried. -/
structure connect_result where
  ret : Bool
  connection : Option Nat
  socket : Option Int
  id : Option Nat
  error : Option GErr
  address : Option Nat
  tried : List Nat
  deriving DecidableEq

/-- The candidate loop of `tcti_tabrmd_call_create_connection_tls` (lines 594-609): the
address the socket got connected to, if any, and the addresses tried, in order. -/
def connect_loop : List (Nat × Bool) → List Nat → Option Nat × List Nat
  | [], tried => (none, tried)
  | (address, ok) :: rest, tried =>
    if ok then (some address, tried ++ [address])
    else connect_loop rest (tried ++ [address])

/-- The function `tcti_tabrmd_call_create_connection_tls`.  `error` is the caller's error
slot on entry. -/
def tcti_tabrmd_call_create_connection_tls (n : NetEnv) (tls_enabled : Bool)
    (error : Option GErr) : connect_result :=
  match n.socket with
  | none => ⟨false, none, none, none, some GErr.socket_new, none, []⟩
  | some sock =>
    if n.parses = false then ⟨false, none, some sock, none, some GErr.parse, none, []⟩
    else
      match connect_loop n.candidates [] with
      | (none, tried) =>
        let error1 := if n.enum_error then some GErr.enumerate else error
        let error2 := if error1 = none then some GErr.no_more_addresses else error1
        ⟨false, none, some sock, none, error2, none, tried⟩
      | (some address, tried) =>
        match n.local_hash with
        | none => ⟨false, none, some sock, none, some GErr.local_address, some address, tried⟩
        | some h =>
          if tls_enabled then
            match n.tls_conn with
            | none =>
              ⟨false, n.plain_conn, some sock, some h, some GErr.tls_new, some address, tried⟩
            | some t =>
              if n.handshake = false then
                ⟨false, some t, some sock, some h, some GErr.handshake, some address, tried⟩
              else ⟨true, some t, some sock, some h, error, some address, tried⟩
          else ⟨true, n.plain_conn, some sock, some h, error, some address, tried⟩

/-- The function `tss2_tcti_tabrmd_tls_init`.  `cert` is what loading `cert_file` gives
(`none` when it cannot be read); the descriptor of the socket is `-1` when
`g_socket_get_fd` fails. -/
def tss2_tcti_tabrmd_tls_init (K : Decls) (n : NetEnv) (cert : Option Nat)
    (context : Option Ctx) (size : Option Nat) (ip_addr : Option String) (port : Nat)
    (cert_file : Option String) (tls_enabled : Bool) : init_result :=
  match context with
  | none =>
    match size with
    | none => ⟨some TSS2_RC.BAD_VALUE, context, size⟩
    | some _ => ⟨some TSS2_RC.SUCCESS, context, some K.sizeof_context⟩
  | some ctx =>
    if ip_addr = none then ⟨some TSS2_RC.BAD_VALUE, context, size⟩
    else if cert_file ≠ none ∧ cert = none then ⟨none, context, size⟩
    else
      let ctx1 := init_tcti_data K ctx
      let c := tcti_tabrmd_call_create_connection_tls n tls_enabled none
      if c.ret = false then ⟨some TSS2_RC.NO_CONNECTION, some ctx1, size⟩
      else
        match c.connection with
        | none => ⟨none, some ctx1, size⟩
        | some conn =>
          let ctx2 : Ctx := { ctx1 with iostream := some conn }
          let fd := c.socket.getD (-1)
          if fd = -1 then ⟨none, some ctx2, size⟩
          else ⟨some TSS2_RC.SUCCESS, some { ctx2 with fd := fd, id := c.id.getD 0 }, size⟩

/-! ## Sequences of calls -/

/-- One call of the public operation surface, with its arguments. -/
inductive Call
  | transmit (size : Nat) (command : Option (List Byte))
  | receive (size : Option Nat) (response : Option (List Byte)) (timeout : Int)
  | cancel
  | set_locality (locality : Nat)
  | finalize

/-- A context together with the world it talks to. -/
structure Sys where
  context : Option Ctx
  world : World

/-- Make one call on the context, after the peer has changed its answers to `p`. -/
def step (K : Decls) (s : Sys) (pc : Peer × Call) : Sys :=
  let w : World := { toPeer := pc.1, trace := s.world.trace }
  match pc.2 with
  | .transmit size command =>
    let r := tss2_tcti_tabrmd_transmit K w s.context size command
    ⟨r.context, r.world⟩
  | .receive size response timeout =>
    let r := tss2_tcti_tabrmd_receive K w s.context size response timeout
    ⟨r.context, r.world⟩
  | .cancel =>
    let r := tss2_tcti_tabrmd_cancel w s.context
    ⟨r.context, r.world⟩
  | .set_locality locality =>
    let r := tss2_tcti_tabrmd_set_locality w s.context locality
    ⟨r.context, r.world⟩
  | .finalize =>
    let r := tss2_tcti_tabrmd_finalize w s.context
    ⟨r.1, r.2⟩

/-- Make the calls of a list, in order. -/
def run (K : Decls) (s : Sys) (calls : List (Peer × Call)) : Sys :=
  calls.foldl (step K) s

/-! ## Vocabulary of the statements -/

/-- The world once `tcti_tabrmd_poll` has been called. -/
def polled (w : World) (fd : Int) (timeout : Int) : World :=
  { w with trace := w.trace ++ [IOEvent.poll fd timeout] }

/-- The three header fields decoded from a header buffer (lines 226-228). -/
def parse_header (buf : List Byte) : tpm_header :=
  { tag := get_response_tag buf, size := get_response_size buf, code := get_response_code buf }

/-- The caller's buffer after the header copy of lines 239-242. -/
def copy_header (ctx : Ctx) (buf : List Byte) : List Byte :=
  if ctx.index = TPM_HEADER_SIZE then writeAt buf 0 (ctx.header_buf.take TPM_HEADER_SIZE) else buf

/-- The peer delivers the bytes `c`; the descriptor polls ready and a read that runs out
of bytes would block. -/
def deliver (w : World) (c : List Byte) : World :=
  { w with poll_ret := 1, avail := w.avail ++ c, on_empty := read_end.would_block }

/-- One `tss2_tcti_tabrmd_receive` call per chunk, each after the peer delivered that
chunk, always with the same buffer and the same capacity `cap`: the results in order. -/
def receive_chunks (K : Decls) (timeout : Int) (cap : Nat) :
    World → Ctx → List Byte → List (List Byte) → List receive_result
  | _, _, _, [] => []
  | w, ctx, buf, c :: cs =>
    let r := tss2_tcti_tabrmd_receive K (deliver w c) (some ctx) (some cap) (some buf) timeout
    r :: receive_chunks K timeout cap r.world (r.context.getD ctx) (r.response.getD buf) cs

/-- The context holds the first `ctx.index` bytes of `frame`, with more to come: the header
bytes read so far are in the header buffer, and once the header is complete it is
parsed and the bytes read so far are in the caller's buffer `buf`. -/
structure Mid (K : Decls) (frame : List Byte) (ctx : Ctx) (buf : List Byte) (w : World) :
    Prop where
  magic : ctx.magic = K.TSS2_TCTI_TABRMD_MAGIC
  version : ctx.version = K.TSS2_TCTI_TABRMD_VERSION
  state : ctx.state = tcti_tabrmd_state.RECEIVE
  lt : ctx.index < frame.length
  avail : w.avail = []
  hb : ctx.header_buf.take (min ctx.index TPM_HEADER_SIZE)
    = frame.take (min ctx.index TPM_HEADER_SIZE)
  hdr : TPM_HEADER_SIZE ≤ ctx.index → ctx.header.size = frame.length
  len : buf.length = frame.length
  got : TPM_HEADER_SIZE ≤ ctx.index → buf.take ctx.index = frame.take ctx.index

/-- The outcome of the call that completes `frame`: success, state TRANSMIT, index 0,
`*size` the frame size and the buffer holding the frame. -/
def Done (frame : List Byte) (r : receive_result) : Prop :=
  r.rc = TSS2_RC.SUCCESS ∧
  r.context.map (·.state) = some tcti_tabrmd_state.TRANSMIT ∧
  r.context.map (·.index) = some 0 ∧
  r.size = some frame.length ∧
  r.response = some frame

/-- The outcome of a call that leaves `frame` incomplete: TRY_AGAIN, with the context
holding the first `k` bytes of the frame. -/
def Again (K : Decls) (frame : List Byte) (r : receive_result) (k : Nat) : Prop :=
  r.rc = TSS2_RC.TRY_AGAIN ∧
  ∃ ctx1 buf1, r.context = some ctx1 ∧ r.response = some buf1 ∧
    Mid K frame ctx1 buf1 r.world ∧ ctx1.index = k

/-- Whether the call is `finalize`. -/
def Call.isFinalize : Call → Bool
  | .finalize => true
  | _ => false

/-- The duplex stream field is populated (non-NULL). -/
def stream_populated (ctx : Ctx) : Bool :=
  ctx.iostream.isSome

/-- The raw descriptor field is populated, by the test `tss2_tcti_tabrmd_finalize` makes
of it (`!= 0`). -/
def descriptor_populated (ctx : Ctx) : Bool :=
  decide (ctx.fd ≠ 0)

/-! ## Concrete inputs -/

/-- Example values for the declarations that are parameters. -/
def exDecls : Decls :=
  { TSS2_TCTI_TABRMD_MAGIC := 0x1c8e03ff00db0f92, TSS2_TCTI_TABRMD_VERSION := 1,
    sizeof_context := 128 }

/-- A zeroed context memory, as a caller hands it to an initialisation function. -/
def exZero : Ctx :=
  { magic := 0, version := 0, transmit := none, receive := none, finalize := none,
    cancel := none, get_poll_handles := none, set_locality := none,
    state := tcti_tabrmd_state.TRANSMIT, fd := 0, iostream := none, proxy := none, id := 0,
    index := 0, header_buf := List.replicate 10 0, header := ⟨0, 0, 0⟩ }

/-- A freshly initialised context on descriptor 3: state TRANSMIT, receive index 0. -/
def exFresh : Ctx :=
  { init_tcti_data exDecls exZero with fd := 3, proxy := some 1, id := 7 }

/-- The fresh context after a successful transmit: state RECEIVE. -/
def exReceive : Ctx :=
  { exFresh with state := tcti_tabrmd_state.RECEIVE }

/-- A quiet world: nothing to read, nothing called yet. -/
def exWorld : World :=
  { poll_ret := 1, poll_errno := 4, avail := [], on_empty := read_end.would_block,
    write_ret := 0, ctl_ok := true, ctl_rc := 0, ctl_err := 0, trace := [] }

/-- A 12-byte frame: tag 0x8001, size 12, response code 0, two body bytes. -/
def exFrame : List Byte :=
  [0x80, 0x01, 0, 0, 0, 12, 0, 0, 0, 0, 0xaa, 0xbb]

/-- A header-only frame: tag 0x8001, size 10, response code 0. -/
def exHeaderOnly : List Byte :=
  [0x80, 0x01, 0, 0, 0, 10, 0, 0, 0, 0]

/-- A malformed header: its size field says 5. -/
def exMalformed : List Byte :=
  [0x80, 0x01, 0, 0, 0, 5, 0, 0, 0, 0]

/-- The bus hands back one descriptor, 4, and the id 7. -/
def exBroker : BrokerEnv :=
  { proxy := some 1, reply := some 7, fd_list := some [4], set_flags_ret := 0 }

/-- Three candidate addresses: the first two refuse the connection, the third accepts. -/
def exNet : NetEnv :=
  { socket := some 5, parses := true, candidates := [(1, false), (2, false), (3, true)],
    enum_error := false, local_hash := some 99, plain_conn := some 11, tls_conn := some 12,
    handshake := true }

/-- A host name. -/
def exHost : String := "localhost"

/-- The bus is there but the `CreateConnection` call fails. -/
def exBrokerDown : BrokerEnv :=
  { exBroker with reply := none }

/-- Two candidate addresses, both refusing the connection. -/
def exNetDown : NetEnv :=
  { exNet with candidates := [(1, false), (2, false)] }

/-- The context in state RECEIVE that a transmit, a receive answered by the malformed
example header, and a second transmit leave behind: receive index 10, parsed size 5. -/
def exStale : Ctx :=
  { exReceive with index := 10, header_buf := exMalformed, header := ⟨0x8001, 5, 0⟩ }

/-- The context in state RECEIVE after the first 11 bytes of the 12-byte example frame
have been received into a 12-byte buffer. -/
def exMidBody : Ctx :=
  { exReceive with index := 11, header_buf := exFrame.take 10, header := ⟨0x8001, 12, 0⟩ }

/-! ## Lemmas on buffers -/

theorem writeAt_eq (buf : List Byte) (off : Nat) (data : List Byte) (h : off ≤ buf.length) :
    writeAt buf off data = buf.take off ++ data ++ buf.drop (off + data.length) := by
  unfold writeAt
  have : off - buf.length = 0 := by omega
  simp [this]

theorem writeAt_length (buf : List Byte) (off : Nat) (data : List Byte)
    (h : off + data.length ≤ buf.length) : (writeAt buf off data).length = buf.length := by
  rw [writeAt_eq buf off data (by omega)]
  simp
  omega

theorem writeAt_take (buf : List Byte) (off : Nat) (data : List Byte) (h : off ≤ buf.length) :
    (writeAt buf off data).take (off + data.length) = buf.take off ++ data := by
  rw [writeAt_eq buf off data h]
  have hl : (buf.take off ++ data).length = off + data.length := by simp; omega
  rw [← hl, List.take_left']
  rfl

theorem take_append_of_drop (l a rest : List Byte) (k : Nat) (h : l.drop k = a ++ rest) :
    l.take k ++ a = l.take (k + a.length) := by
  rw [List.take_add, h]
  simp

theorem drop_add_of_drop (l a rest : List Byte) (k : Nat) (h : l.drop k = a ++ rest) :
    l.drop (k + a.length) = rest := by
  rw [← List.drop_drop, h]
  simp

theorem be_lt (bs : List Byte) : be bs < 256 ^ bs.length := by
  unfold be
  suffices h : ∀ (acc : Nat) (n : Nat), acc < 256 ^ n →
      bs.foldl (fun acc b => acc * 256 + b.val) acc < 256 ^ (n + bs.length) by
    simpa using h 0 0 (by simp)
  induction bs with
  | nil => intro acc n h; simpa using h
  | cons b bs ih =>
    intro acc n h
    have hb := b.isLt
    have := ih (acc * 256 + b.val) (n + 1) (by rw [pow_succ]; omega)
    simpa [List.foldl, Nat.add_assoc, Nat.add_comm 1] using this

theorem get_response_size_lt (buf : List Byte) : get_response_size buf < 2 ^ 32 := by
  unfold get_response_size
  have h := be_lt ((buf.drop 2).take 4)
  have hl : ((buf.drop 2).take 4).length ≤ 4 := by simp
  calc be ((buf.drop 2).take 4) < 256 ^ ((buf.drop 2).take 4).length := h
    _ ≤ 256 ^ 4 := Nat.pow_le_pow_right (by norm_num) hl
    _ = 2 ^ 32 := by norm_num

theorem get_response_size_take (buf : List Byte) (n : Nat) (h : 6 ≤ n) :
    get_response_size (buf.take n) = get_response_size buf := by
  unfold get_response_size
  rw [List.drop_take, List.take_take]
  congr 2
  omega

/-! ## Lemmas on the stages of receive -/

theorem read_end_code_ne_zero (e : read_end) : e.code ≠ 0 := by
  cases e with
  | would_block => decide
  | eof => decide
  | fault n =>
    have := n.pos
    simp only [read_end.code]
    omega

theorem poll_ready (w : World) (fd timeout : Int) (hp1 : w.poll_ret ≠ -1) (hp0 : w.poll_ret ≠ 0) :
    tcti_tabrmd_poll w fd timeout = (0, polled w fd timeout) := by
  simp [tcti_tabrmd_poll, polled, hp1, hp0]

theorem receive_of_ready (K : Decls) (w : World) (ctx : Ctx) (sz : Nat)
    (response : Option (List Byte)) (timeout : Int)
    (hm : ctx.magic = K.TSS2_TCTI_TABRMD_MAGIC) (hv : ctx.version = K.TSS2_TCTI_TABRMD_VERSION)
    (hs : ctx.state = tcti_tabrmd_state.RECEIVE) (ht : TSS2_TCTI_TIMEOUT_BLOCK ≤ timeout)
    (hmode : response = none → sz = 0) (hcap : response ≠ none → TPM_HEADER_SIZE ≤ sz)
    (hp1 : w.poll_ret ≠ -1) (hp0 : w.poll_ret ≠ 0) :
    tss2_tcti_tabrmd_receive K w (some ctx) (some sz) response timeout =
      match (receive_header (polled w ctx.fd timeout) ctx).1 with
      | some rc =>
        ⟨rc, some (receive_header (polled w ctx.fd timeout) ctx).2.1, some sz, response,
          (receive_header (polled w ctx.fd timeout) ctx).2.2⟩
      | none =>
        receive_body (receive_header (polled w ctx.fd timeout) ctx).2.2
          (receive_header (polled w ctx.fd timeout) ctx).2.1 sz response := by
  have h1 : ¬ (response = none ∧ sz ≠ 0) := fun h => h.2 (hmode h.1)
  have h2 : ¬ (response ≠ none ∧ sz < TPM_HEADER_SIZE) := fun h => by
    have := hcap h.1
    omega
  have h3 : ¬ timeout < TSS2_TCTI_TIMEOUT_BLOCK := by omega
  simp only [tss2_tcti_tabrmd_receive, h1, h2, h3, hm, hv, hs, poll_ready w ctx.fd timeout hp1 hp0]
  simp only [ne_eq, not_true_eq_false, or_self, if_false]
  rfl

theorem receive_header_short (w : World) (ctx : Ctx) (hk : ctx.index < TPM_HEADER_SIZE)
    (ha : w.avail.length < TPM_HEADER_SIZE - ctx.index) :
    receive_header w ctx =
      (some (errno_to_tcti_rc w.on_empty.code),
        { ctx with index := ctx.index + w.avail.length
                   header_buf := writeAt ctx.header_buf ctx.index w.avail },
        { w with trace := w.trace ++ [IOEvent.read ctx.index (TPM_HEADER_SIZE - ctx.index)]
                 avail := [] }) := by
  have h1 : ¬ (TPM_HEADER_SIZE - ctx.index ≤ w.avail.length) := by omega
  have h2 : (ctx.index + w.avail.length) % SIZE_T = ctx.index + w.avail.length := by
    apply Nat.mod_eq_of_lt
    unfold TPM_HEADER_SIZE at hk ha
    unfold SIZE_T
    omega
  simp [receive_header, read_data, hk, h1, h2, read_end_code_ne_zero]

theorem receive_header_full (w : World) (ctx : Ctx) (hk : ctx.index < TPM_HEADER_SIZE)
    (ha : TPM_HEADER_SIZE - ctx.index ≤ w.avail.length) :
    receive_header w ctx =
      (if get_response_size
            (writeAt ctx.header_buf ctx.index (w.avail.take (TPM_HEADER_SIZE - ctx.index)))
          < TPM_HEADER_SIZE
        then some TSS2_RC.MALFORMED_RESPONSE else none,
        { ctx with
          index := TPM_HEADER_SIZE
          header_buf := writeAt ctx.header_buf ctx.index (w.avail.take (TPM_HEADER_SIZE - ctx.index))
          header := parse_header
            (writeAt ctx.header_buf ctx.index (w.avail.take (TPM_HEADER_SIZE - ctx.index)))
          state :=
            if get_response_size
                (writeAt ctx.header_buf ctx.index (w.avail.take (TPM_HEADER_SIZE - ctx.index)))
              < TPM_HEADER_SIZE
            then tcti_tabrmd_state.TRANSMIT else ctx.state },
        { w with trace := w.trace ++ [IOEvent.read ctx.index (TPM_HEADER_SIZE - ctx.index)]
                 avail := w.avail.drop (TPM_HEADER_SIZE - ctx.index) }) := by
  have h2 : (ctx.index + (TPM_HEADER_SIZE - ctx.index)) % SIZE_T = TPM_HEADER_SIZE := by
    have : ctx.index + (TPM_HEADER_SIZE - ctx.index) = TPM_HEADER_SIZE := by omega
    rw [this]
    decide
  simp only [receive_header, read_data, hk, ha, h2, if_true, parse_header, ne_eq,
    not_true_eq_false, if_false]
  split_ifs <;> rfl

theorem receive_header_skip (w : World) (ctx : Ctx) (hk : ¬ ctx.index < TPM_HEADER_SIZE) :
    receive_header w ctx = (none, ctx, w) := by
  simp [receive_header, hk]

theorem receive_body_header_only (w : World) (ctx : Ctx) (sz : Nat) (buf : List Byte)
    (h : ctx.header.size = TPM_HEADER_SIZE) :
    receive_body w ctx sz (some buf) =
      ⟨TSS2_RC.SUCCESS, some { ctx with index := 0, state := tcti_tabrmd_state.TRANSMIT },
        some sz, some (copy_header ctx buf), w⟩ := by
  simp [receive_body, h, copy_header]

theorem receive_body_insufficient (w : World) (ctx : Ctx) (sz : Nat) (buf : List Byte)
    (h : ctx.header.size ≠ TPM_HEADER_SIZE) (hsz : sz < ctx.header.size) :
    receive_body w ctx sz (some buf) =
      ⟨TSS2_RC.INSUFFICIENT_BUFFER, some ctx, some sz, some (copy_header ctx buf), w⟩ := by
  simp [receive_body, h, hsz, copy_header]

theorem size_t_sub (s k : Nat) (hk : k ≤ s) (hs : s < SIZE_T) : (s + SIZE_T - k) % SIZE_T = s - k := by
  have : s + SIZE_T - k = (s - k) + SIZE_T := by omega
  rw [this, Nat.add_mod_right]
  exact Nat.mod_eq_of_lt (by omega)

theorem receive_body_read_full (w : World) (ctx : Ctx) (sz : Nat) (buf : List Byte)
    (h : ctx.header.size ≠ TPM_HEADER_SIZE) (hsz : ctx.header.size ≤ sz)
    (hk : ctx.index ≤ ctx.header.size) (hs : ctx.header.size < SIZE_T)
    (ha : ctx.header.size - ctx.index ≤ w.avail.length) :
    receive_body w ctx sz (some buf) =
      ⟨TSS2_RC.SUCCESS, some { ctx with index := 0, state := tcti_tabrmd_state.TRANSMIT },
        some ctx.header.size,
        some (writeAt (copy_header ctx buf) ctx.index
          (w.avail.take (ctx.header.size - ctx.index))),
        { w with trace := w.trace ++ [IOEvent.read ctx.index (ctx.header.size - ctx.index)]
                 avail := w.avail.drop (ctx.header.size - ctx.index) }⟩ := by
  have h1 : ¬ sz < ctx.header.size := by omega
  have h2 : (ctx.index + (ctx.header.size - ctx.index)) % SIZE_T = ctx.header.size := by
    have : ctx.index + (ctx.header.size - ctx.index) = ctx.header.size := by omega
    rw [this]
    exact Nat.mod_eq_of_lt hs
  simp only [receive_body, h, h1, if_false, size_t_sub _ _ hk hs, read_data, ha, if_true, h2,
    copy_header]
  rfl

theorem receive_body_read_short (w : World) (ctx : Ctx) (sz : Nat) (buf : List Byte)
    (h : ctx.header.size ≠ TPM_HEADER_SIZE) (hsz : ctx.header.size ≤ sz)
    (hk : ctx.index ≤ ctx.header.size) (hs : ctx.header.size < SIZE_T)
    (ha : w.avail.length < ctx.header.size - ctx.index) :
    receive_body w ctx sz (some buf) =
      ⟨errno_to_tcti_rc w.on_empty.code, some { ctx with index := ctx.index + w.avail.length },
        some sz, some (writeAt (copy_header ctx buf) ctx.index w.avail),
        { w with trace := w.trace ++ [IOEvent.read ctx.index (ctx.header.size - ctx.index)]
                 avail := [] }⟩ := by
  have h1 : ¬ sz < ctx.header.size := by omega
  have h2 : (ctx.index + w.avail.length) % SIZE_T = ctx.index + w.avail.length :=
    Nat.mod_eq_of_lt (by omega)
  have h3 : ¬ (ctx.header.size - ctx.index ≤ w.avail.length) := by omega
  simp only [receive_body, h, h1, if_false, size_t_sub _ _ hk hs, read_data, h3, h2,
    read_end_code_ne_zero, copy_header]

/-! ## C1: a frame received in chunks -/

theorem eq_of_take_length (x y : List Byte) (n : Nat) (hx : x.length = n) (hy : y.length = n)
    (h : x.take n = y.take n) : x = y := by
  rw [List.take_of_length_le (by omega), List.take_of_length_le (by omega)] at h
  exact h

theorem errno_would_block : errno_to_tcti_rc read_end.would_block.code = TSS2_RC.TRY_AGAIN := by
  decide

theorem copy_header_spec (frame : List Byte) (ctx : Ctx) (buf : List Byte)
    (hs10 : TPM_HEADER_SIZE ≤ frame.length)
    (hhb : ctx.header_buf.take TPM_HEADER_SIZE = frame.take TPM_HEADER_SIZE)
    (hlen : buf.length = frame.length)
    (hgot : ctx.index ≠ TPM_HEADER_SIZE → buf.take ctx.index = frame.take ctx.index) :
    (copy_header ctx buf).take ctx.index = frame.take ctx.index ∧
      (copy_header ctx buf).length = frame.length := by
  unfold copy_header
  by_cases hk : ctx.index = TPM_HEADER_SIZE
  · have hl : (ctx.header_buf.take TPM_HEADER_SIZE).length = TPM_HEADER_SIZE := by
      rw [hhb, List.length_take]
      omega
    rw [if_pos hk]
    constructor
    · have h := writeAt_take buf 0 (ctx.header_buf.take TPM_HEADER_SIZE) (Nat.zero_le _)
      rw [hl, Nat.zero_add] at h
      rw [hk, h, hhb]
      simp
    · rw [writeAt_length _ _ _ (by omega)]
      exact hlen
  · rw [if_neg hk]
    exact ⟨hgot hk, hlen⟩

theorem receive_body_chunk (K : Decls) (frame : List Byte) (ctx : Ctx) (buf : List Byte)
    (w : World) (rest : List Byte)
    (hm : ctx.magic = K.TSS2_TCTI_TABRMD_MAGIC) (hv : ctx.version = K.TSS2_TCTI_TABRMD_VERSION)
    (hst : ctx.state = tcti_tabrmd_state.RECEIVE)
    (hs10 : TPM_HEADER_SIZE ≤ frame.length) (hlt : frame.length < SIZE_T)
    (hk10 : TPM_HEADER_SIZE ≤ ctx.index)
    (hkle : ctx.index ≤ frame.length)
    (hklt : ctx.index < frame.length ∨ frame.length = TPM_HEADER_SIZE)
    (hhb : ctx.header_buf.take TPM_HEADER_SIZE = frame.take TPM_HEADER_SIZE)
    (hhdr : ctx.header.size = frame.length)
    (hlen : buf.length = frame.length)
    (hgot : ctx.index ≠ TPM_HEADER_SIZE → buf.take ctx.index = frame.take ctx.index)
    (hdrop : frame.drop ctx.index = w.avail ++ rest) :
    (rest = [] → Done frame (receive_body w ctx frame.length (some buf))) ∧
    (rest ≠ [] → w.on_empty = read_end.would_block →
      Again K frame (receive_body w ctx frame.length (some buf))
        (ctx.index + w.avail.length)) := by
  unfold Done Again
  obtain ⟨hc1, hc2⟩ := copy_header_spec frame ctx buf hs10 hhb hlen hgot
  have hsum : w.avail.length + rest.length = frame.length - ctx.index := by
    have := congrArg List.length hdrop
    simpa using this.symm
  by_cases hs : frame.length = TPM_HEADER_SIZE
  · have hk : ctx.index = frame.length := by omega
    have hrest : rest = [] := List.eq_nil_of_length_eq_zero (by omega)
    rw [receive_body_header_only w ctx _ buf (by omega)]
    refine ⟨fun _ => ⟨rfl, rfl, rfl, rfl, ?_⟩, fun h _ => absurd hrest h⟩
    simp only [Option.some.injEq]
    apply eq_of_take_length _ _ frame.length hc2 rfl
    rw [← hk]
    exact hc1
  · have hk : ctx.index < frame.length := by omega
    by_cases ha : ctx.header.size - ctx.index ≤ w.avail.length
    · have hrest : rest = [] := List.eq_nil_of_length_eq_zero (by omega)
      have hal : w.avail.length = frame.length - ctx.index := by omega
      rw [receive_body_read_full w ctx _ buf (by omega) (by omega) (by omega) (by omega) ha]
      refine ⟨fun _ => ⟨rfl, rfl, rfl, by simp [hhdr], ?_⟩, fun h _ => absurd hrest h⟩
      simp only [Option.some.injEq]
      rw [List.take_of_length_le (by omega)]
      apply eq_of_take_length _ _ frame.length _ rfl
      · have h := writeAt_take (copy_header ctx buf) ctx.index w.avail (by omega)
        have e : ctx.index + w.avail.length = frame.length := by omega
        rw [e, hc1, take_append_of_drop frame w.avail rest ctx.index hdrop, e] at h
        exact h
      · rw [writeAt_length _ _ _ (by omega)]
        exact hc2
    · have hrest : rest ≠ [] := by
        intro h
        rw [h] at hsum
        simp at hsum
        omega
      rw [receive_body_read_short w ctx _ buf (by omega) (by omega) (by omega) (by omega)
        (by omega)]
      refine ⟨fun h => absurd h hrest, fun _ hoe => ⟨by rw [hoe]; exact errno_would_block, _, _,
        rfl, rfl, ?_, rfl⟩⟩
      have hr : 0 < rest.length := List.length_pos.mpr hrest
      have h10 : min (ctx.index + w.avail.length) TPM_HEADER_SIZE = TPM_HEADER_SIZE := by omega
      refine ⟨hm, hv, hst, ?_, rfl, ?_, fun _ => hhdr, ?_, ?_⟩
      · show ctx.index + w.avail.length < frame.length
        omega
      · show ctx.header_buf.take (min (ctx.index + w.avail.length) TPM_HEADER_SIZE) = _
        rw [h10]
        exact hhb
      · rw [writeAt_length _ _ _ (by omega)]
        exact hc2
      · intro _
        show (writeAt (copy_header ctx buf) ctx.index w.avail).take (ctx.index + w.avail.length) = _
        rw [writeAt_take _ _ _ (by omega), hc1]
        exact take_append_of_drop frame w.avail rest ctx.index hdrop

theorem receive_chunk_step (K : Decls) (frame : List Byte) (ctx : Ctx) (buf : List Byte)
    (w : World) (timeout : Int) (c rest : List Byte)
    (hinv : Mid K frame ctx buf w) (hs10 : TPM_HEADER_SIZE ≤ frame.length)
    (hsize : get_response_size frame = frame.length)
    (ht : TSS2_TCTI_TIMEOUT_BLOCK ≤ timeout)
    (hdrop : frame.drop ctx.index = c ++ rest) :
    (rest = [] → Done frame
      (tss2_tcti_tabrmd_receive K (deliver w c) (some ctx) (some frame.length) (some buf)
        timeout)) ∧
    (rest ≠ [] → Again K frame
      (tss2_tcti_tabrmd_receive K (deliver w c) (some ctx) (some frame.length) (some buf)
        timeout) (ctx.index + c.length)) := by
  have h10 : TPM_HEADER_SIZE = 10 := rfl
  have hlt : frame.length < SIZE_T := by
    have := get_response_size_lt frame
    rw [hsize] at this
    unfold SIZE_T
    omega
  have hsum : c.length + rest.length = frame.length - ctx.index := by
    have := congrArg List.length hdrop
    simpa using this.symm
  have hklt := hinv.lt
  rw [receive_of_ready K (deliver w c) ctx frame.length (some buf) timeout hinv.magic
    hinv.version hinv.state ht (fun h => by simp at h) (fun _ => hs10) (by simp [deliver])
    (by simp [deliver])]
  generalize hW : polled (deliver w c) ctx.fd timeout = W
  have hav : W.avail = c := by
    rw [← hW]
    simp [polled, deliver, hinv.avail]
  have hoe : W.on_empty = read_end.would_block := by
    rw [← hW]
    rfl
  by_cases hk : ctx.index < TPM_HEADER_SIZE
  · have hmin : min ctx.index TPM_HEADER_SIZE = ctx.index := by omega
    have hhb := hinv.hb
    rw [hmin] at hhb
    have hkl : ctx.index ≤ ctx.header_buf.length := by
      have := congrArg List.length hhb
      simp only [List.length_take] at this
      omega
    by_cases ha : c.length < TPM_HEADER_SIZE - ctx.index
    · have hrest : rest ≠ [] := by
        intro h
        rw [h] at hsum
        simp at hsum
        omega
      rw [receive_header_short W ctx hk (by rw [hav]; exact ha)]
      refine ⟨fun h => absurd h hrest, fun _ => ⟨by rw [hoe]; exact errno_would_block, _, _,
        rfl, rfl, ?_, by rw [hav]⟩⟩
      have hmin2 : min (ctx.index + W.avail.length) TPM_HEADER_SIZE
          = ctx.index + W.avail.length := by
        rw [hav]
        omega
      refine ⟨hinv.magic, hinv.version, hinv.state, ?_, rfl, ?_, ?_, hinv.len, ?_⟩
      · show ctx.index + W.avail.length < frame.length
        rw [hav]
        omega
      · show (writeAt ctx.header_buf ctx.index W.avail).take
          (min (ctx.index + W.avail.length) TPM_HEADER_SIZE) = _
        rw [hmin2, writeAt_take _ _ _ hkl, hhb, hav]
        exact take_append_of_drop frame c rest ctx.index hdrop
      · intro h
        have : TPM_HEADER_SIZE ≤ ctx.index + W.avail.length := h
        rw [hav] at this
        omega
      · intro h
        have : TPM_HEADER_SIZE ≤ ctx.index + W.avail.length := h
        rw [hav] at this
        omega
    · have hsplit : frame.drop ctx.index
          = c.take (TPM_HEADER_SIZE - ctx.index) ++ (c.drop (TPM_HEADER_SIZE - ctx.index) ++ rest) := by
        rw [hdrop, ← List.append_assoc, List.take_append_drop]
      have hcl : (c.take (TPM_HEADER_SIZE - ctx.index)).length = TPM_HEADER_SIZE - ctx.index := by
        rw [List.length_take]
        omega
      have hhb1 : (writeAt ctx.header_buf ctx.index (c.take (TPM_HEADER_SIZE - ctx.index))).take
          TPM_HEADER_SIZE = frame.take TPM_HEADER_SIZE := by
        have h1 := writeAt_take ctx.header_buf ctx.index (c.take (TPM_HEADER_SIZE - ctx.index)) hkl
        have h2 := take_append_of_drop frame _ _ ctx.index hsplit
        have e : ctx.index + (TPM_HEADER_SIZE - ctx.index) = TPM_HEADER_SIZE := by omega
        rw [hcl, e] at h1 h2
        rw [h1, hhb, h2]
      have hgs : get_response_size
          (writeAt ctx.header_buf ctx.index (c.take (TPM_HEADER_SIZE - ctx.index)))
          = frame.length := by
        rw [← get_response_size_take _ TPM_HEADER_SIZE (by omega), hhb1,
          get_response_size_take _ TPM_HEADER_SIZE (by omega), hsize]
      have hnm : ¬ get_response_size
          (writeAt ctx.header_buf ctx.index (c.take (TPM_HEADER_SIZE - ctx.index)))
          < TPM_HEADER_SIZE := by
        rw [hgs]
        omega
      rw [receive_header_full W ctx hk (by rw [hav]; omega)]
      simp only [hav, hnm, if_false]
      have hb := receive_body_chunk K frame
        { ctx with
          index := TPM_HEADER_SIZE
          header_buf := writeAt ctx.header_buf ctx.index (c.take (TPM_HEADER_SIZE - ctx.index))
          header := parse_header
            (writeAt ctx.header_buf ctx.index (c.take (TPM_HEADER_SIZE - ctx.index))) }
        buf
        { W with trace := W.trace ++ [IOEvent.read ctx.index (TPM_HEADER_SIZE - ctx.index)]
                 avail := c.drop (TPM_HEADER_SIZE - ctx.index) }
        rest hinv.magic hinv.version hinv.state hs10 hlt (Nat.le_refl _) hs10 (by
          show TPM_HEADER_SIZE < frame.length ∨ _
          omega) hhb1 hgs hinv.len (fun h => absurd rfl h) (by
          have := drop_add_of_drop frame _ _ ctx.index hsplit
          rw [hcl] at this
          have e : ctx.index + (TPM_HEADER_SIZE - ctx.index) = TPM_HEADER_SIZE := by omega
          rw [e] at this
          exact this)
      have e2 : TPM_HEADER_SIZE + (c.drop (TPM_HEADER_SIZE - ctx.index)).length
          = ctx.index + c.length := by
        rw [List.length_drop]
        omega
      simp only [e2] at hb
      exact ⟨hb.1, fun h => hb.2 h hoe⟩
  · have hmin : min ctx.index TPM_HEADER_SIZE = TPM_HEADER_SIZE := by omega
    have hhb := hinv.hb
    rw [hmin] at hhb
    rw [receive_header_skip W ctx hk]
    have hb := receive_body_chunk K frame ctx buf W rest hinv.magic hinv.version hinv.state hs10
      hlt (by omega) (by omega) (Or.inl hklt) hhb (hinv.hdr (by omega)) hinv.len
      (fun _ => hinv.got (by omega)) (by rw [hav]; exact hdrop)
    rw [hav] at hb
    exact ⟨hb.1, fun h => hb.2 h hoe⟩

theorem receive_chunks_from (K : Decls) (frame : List Byte) (timeout : Int)
    (hs10 : TPM_HEADER_SIZE ≤ frame.length) (hsize : get_response_size frame = frame.length)
    (ht : TSS2_TCTI_TIMEOUT_BLOCK ≤ timeout) (chunks : List (List Byte)) :
    ∀ (w : World) (ctx : Ctx) (buf : List Byte), Mid K frame ctx buf w →
      (∀ c ∈ chunks, c ≠ []) → chunks.flatten = frame.drop ctx.index →
      ∃ init last,
        receive_chunks K timeout frame.length w ctx buf chunks = init ++ [last] ∧
        init.length + 1 = chunks.length ∧
        (∀ r ∈ init, r.rc = TSS2_RC.TRY_AGAIN ∧
          r.context.map (·.state) = some tcti_tabrmd_state.RECEIVE) ∧
        Done frame last := by
  induction chunks with
  | nil =>
    intro w ctx buf hinv _ hj
    have := congrArg List.length hj
    have hlt := hinv.lt
    simp at this
    omega
  | cons c cs ih =>
    intro w ctx buf hinv hne hj
    have hdrop : frame.drop ctx.index = c ++ cs.flatten := by
      rw [← hj]
      rfl
    obtain ⟨hdone, hagain⟩ := receive_chunk_step K frame ctx buf w timeout c cs.flatten hinv hs10
      hsize ht hdrop
    generalize hR : tss2_tcti_tabrmd_receive K (deliver w c) (some ctx) (some frame.length)
      (some buf) timeout = R at hdone hagain
    have hunf : receive_chunks K timeout frame.length w ctx buf (c :: cs)
        = R :: receive_chunks K timeout frame.length R.world (R.context.getD ctx)
          (R.response.getD buf) cs := by
      rw [← hR]
      rfl
    by_cases hrest : cs.flatten = []
    · have hcs : cs = [] := by
        cases cs with
        | nil => rfl
        | cons d ds =>
          exfalso
          have hd := hne d (by simp)
          simp at hrest
          exact hd hrest.1
      subst hcs
      exact ⟨[], R, hunf, rfl, by simp, hdone hrest⟩
    · obtain ⟨hrc, ctx1, buf1, hc1, hb1, hmid, hidx⟩ := hagain hrest
      have hj2 : cs.flatten = frame.drop ctx1.index := by
        rw [hidx]
        exact (drop_add_of_drop frame c cs.flatten ctx.index hdrop).symm
      obtain ⟨init, last, he, hl, hall, hlast⟩ := ih _ ctx1 buf1 hmid
        (fun d hd => hne d (List.mem_cons_of_mem _ hd)) hj2
      refine ⟨R :: init, last, ?_, by simp [hl], ?_, hlast⟩
      · rw [hunf, hc1, hb1]
        simp only [Option.getD_some, he]
        rfl
      · intro r hr
        rcases List.mem_cons.mp hr with h | h
        · subst h
          exact ⟨hrc, by rw [hc1]; simp [hmid.state]⟩
        · exact hall r h

/-- A frame received in chunks from receive index 0: a frame of total size
`s = frame.length ≥ 10` whose size field is `s`, split in any way into non-empty chunks
delivered one per `tss2_tcti_tabrmd_receive` call (poll ready, reads that run dry would
block), received in state RECEIVE from index 0 into the same buffer of capacity exactly
`s`: there are as many calls as chunks, every call before the last returns TRY_AGAIN and
leaves the state RECEIVE, and the last call returns success, leaves state TRANSMIT and
index 0, `*size = s`, and the buffer equal to the frame. -/
theorem receive_chunked_frame (K : Decls) (w : World) (ctx : Ctx) (buf : List Byte)
    (timeout : Int) (frame : List Byte) (chunks : List (List Byte))
    (hm : ctx.magic = K.TSS2_TCTI_TABRMD_MAGIC) (hv : ctx.version = K.TSS2_TCTI_TABRMD_VERSION)
    (hst : ctx.state = tcti_tabrmd_state.RECEIVE) (hidx : ctx.index = 0)
    (hw : w.avail = []) (ht : TSS2_TCTI_TIMEOUT_BLOCK ≤ timeout)
    (hs10 : TPM_HEADER_SIZE ≤ frame.length) (hsize : get_response_size frame = frame.length)
    (hbuf : buf.length = frame.length)
    (hne : ∀ c ∈ chunks, c ≠ []) (hjoin : chunks.flatten = frame) :
    ∃ init last,
      receive_chunks K timeout frame.length w ctx buf chunks = init ++ [last] ∧
      init.length + 1 = chunks.length ∧
      (∀ r ∈ init, r.rc = TSS2_RC.TRY_AGAIN ∧
        r.context.map (·.state) = some tcti_tabrmd_state.RECEIVE) ∧
      last.rc = TSS2_RC.SUCCESS ∧
      last.context.map (·.state) = some tcti_tabrmd_state.TRANSMIT ∧
      last.context.map (·.index) = some 0 ∧
      last.size = some frame.length ∧
      last.response = some frame := by
  have h10 : TPM_HEADER_SIZE = 10 := rfl
  have hmid : Mid K frame ctx buf w := by
    refine ⟨hm, hv, hst, by omega, hw, by simp [hidx], fun h => by omega, hbuf, fun h => by omega⟩
  exact receive_chunks_from K frame timeout hs10 hsize ht chunks w ctx buf hmid hne
    (by rw [hidx, hjoin]; rfl)

/-- The 12-byte example frame arriving in chunks of 3, 8 and 1 bytes from index 0. -/
theorem receive_chunked_frame_witness :
    ∃ init last,
      receive_chunks exDecls 0 exFrame.length exWorld exReceive (List.replicate 12 0)
        [[0x80, 0x01, 0], [0, 0, 12, 0, 0, 0, 0, 0xaa], [0xbb]] = init ++ [last] ∧
      init.length + 1 = 3 ∧
      (∀ r ∈ init, r.rc = TSS2_RC.TRY_AGAIN ∧
        r.context.map (·.state) = some tcti_tabrmd_state.RECEIVE) ∧
      last.rc = TSS2_RC.SUCCESS ∧
      last.context.map (·.state) = some tcti_tabrmd_state.TRANSMIT ∧
      last.context.map (·.index) = some 0 ∧
      last.size = some exFrame.length ∧
      last.response = some exFrame :=
  receive_chunked_frame exDecls exWorld exReceive (List.replicate 12 0) 0 exFrame
    [[0x80, 0x01, 0], [0, 0, 12, 0, 0, 0, 0, 0xaa], [0xbb]]
    rfl rfl rfl rfl rfl (by decide) (by decide) (by decide) (by decide) (by decide) (by decide)

/-- C1 (the code breaks it): a transmit, a receive answered by a header whose size field is
5, and a second transmit leave the context in state RECEIVE with index 10 and parsed size
5; the 12-byte example frame then arrives in chunks of 3, 8 and 1 bytes, one per receive
call into the same 12-byte buffer, and every call, the last one too, returns TRY_AGAIN
with the state still RECEIVE and the buffer not equal to the frame. -/
theorem chunked_receive_after_malformed :
    (run exDecls ⟨some exFresh, exWorld⟩
      [({ exWorld.toPeer with write_ret := 4 }, Call.transmit 4 (some [1, 2, 3, 4])),
       ({ exWorld.toPeer with avail := exMalformed },
          Call.receive (some 10) (some (List.replicate 10 0)) 0),
       ({ exWorld.toPeer with write_ret := 4 },
          Call.transmit 4 (some [1, 2, 3, 4]))]).context = some exStale ∧
    (receive_chunks exDecls 0 exFrame.length exWorld exStale (List.replicate 12 0)
      [[0x80, 0x01, 0], [0, 0, 12, 0, 0, 0, 0, 0xaa], [0xbb]]).map
        (fun r => (r.rc, r.context.map (·.state)))
      = [(TSS2_RC.TRY_AGAIN, some tcti_tabrmd_state.RECEIVE),
         (TSS2_RC.TRY_AGAIN, some tcti_tabrmd_state.RECEIVE),
         (TSS2_RC.TRY_AGAIN, some tcti_tabrmd_state.RECEIVE)] ∧
    ∀ r ∈ (receive_chunks exDecls 0 exFrame.length exWorld exStale (List.replicate 12 0)
      [[0x80, 0x01, 0], [0, 0, 12, 0, 0, 0, 0, 0xaa], [0xbb]]),
      r.rc ≠ TSS2_RC.SUCCESS ∧ r.response ≠ some exFrame := by
  refine ⟨?_, ?_, ?_⟩ <;> decide

/-! ## C2: calls in the wrong state -/

/-- C2, as stated, fails: `tss2_tcti_tabrmd_transmit` in state RECEIVE with length 0 returns
BAD_VALUE, and `tss2_tcti_tabrmd_receive` in state TRANSMIT with a NULL buffer and a
nonzero `*size` returns BAD_VALUE; neither returns BAD_SEQUENCE. -/
theorem wrong_state_counterexample :
    exReceive.state = tcti_tabrmd_state.RECEIVE ∧
    (tss2_tcti_tabrmd_transmit exDecls exWorld (some exReceive) 0 (some [])).rc
      = TSS2_RC.BAD_VALUE ∧
    (tss2_tcti_tabrmd_transmit exDecls exWorld (some exReceive) 0 (some [])).rc
      ≠ TSS2_RC.BAD_SEQUENCE ∧
    exFresh.state = tcti_tabrmd_state.TRANSMIT ∧
    (tss2_tcti_tabrmd_receive exDecls exWorld (some exFresh) (some 5) none 0).rc
      = TSS2_RC.BAD_VALUE ∧
    (tss2_tcti_tabrmd_receive exDecls exWorld (some exFresh) (some 5) none 0).rc
      ≠ TSS2_RC.BAD_SEQUENCE := by
  decide

/-- C2, amended: `tss2_tcti_tabrmd_transmit` called in state RECEIVE and
`tss2_tcti_tabrmd_receive` called in state TRANSMIT, with non-null context, command and
size pointer and any other arguments, leave the context, the caller's `*size` and buffer
and the world (so the trace of poll, read and write calls) unchanged; they return
BAD_SEQUENCE when the checks made before the state check pass: the magic and version are
the TABRMD ones, the transmit length is not 0, and receive is not given a NULL buffer
with a nonzero `*size`. -/
theorem wrong_state_no_io (K : Decls) (w : World) (ctxT ctxR : Ctx) (size : Nat)
    (command : List Byte) (sz : Nat) (response : Option (List Byte)) (timeout : Int)
    (hT : ctxT.state = tcti_tabrmd_state.TRANSMIT)
    (hR : ctxR.state = tcti_tabrmd_state.RECEIVE) :
    ((tss2_tcti_tabrmd_transmit K w (some ctxR) size (some command)).context = some ctxR ∧
      (tss2_tcti_tabrmd_transmit K w (some ctxR) size (some command)).world = w ∧
      (size ≠ 0 → ctxR.magic = K.TSS2_TCTI_TABRMD_MAGIC →
        ctxR.version = K.TSS2_TCTI_TABRMD_VERSION →
        (tss2_tcti_tabrmd_transmit K w (some ctxR) size (some command)).rc
          = TSS2_RC.BAD_SEQUENCE)) ∧
    ((tss2_tcti_tabrmd_receive K w (some ctxT) (some sz) response timeout).context
        = some ctxT ∧
      (tss2_tcti_tabrmd_receive K w (some ctxT) (some sz) response timeout).world = w ∧
      (tss2_tcti_tabrmd_receive K w (some ctxT) (some sz) response timeout).size = some sz ∧
      (tss2_tcti_tabrmd_receive K w (some ctxT) (some sz) response timeout).response
        = response ∧
      ((response = none → sz = 0) → ctxT.magic = K.TSS2_TCTI_TABRMD_MAGIC →
        ctxT.version = K.TSS2_TCTI_TABRMD_VERSION →
        (tss2_tcti_tabrmd_receive K w (some ctxT) (some sz) response timeout).rc
          = TSS2_RC.BAD_SEQUENCE)) := by
  have hR1 : ctxR.state ≠ tcti_tabrmd_state.TRANSMIT := by
    rw [hR]
    decide
  have hT1 : ctxT.state ≠ tcti_tabrmd_state.RECEIVE := by
    rw [hT]
    decide
  constructor
  · simp only [tss2_tcti_tabrmd_transmit, hR1, ne_eq, not_false_eq_true, if_true]
    refine ⟨?_, ?_, ?_⟩
    · split_ifs <;> rfl
    · split_ifs <;> rfl
    · intro h0 hm hv
      simp [h0, hm, hv]
  · simp only [tss2_tcti_tabrmd_receive, hT1, ne_eq, not_false_eq_true, if_true]
    refine ⟨?_, ?_, ?_, ?_, ?_⟩
    · split_ifs <;> rfl
    · split_ifs <;> rfl
    · split_ifs <;> rfl
    · split_ifs <;> rfl
    · intro h0 hm hv
      have h1 : ¬ (response = none ∧ ¬ sz = 0) := fun h => h.2 (h0 h.1)
      simp [h1, hm, hv]

/-- Witness of the amended C2: a 4-byte transmit in state RECEIVE and a 12-byte receive in
state TRANSMIT both return BAD_SEQUENCE. -/
theorem wrong_state_no_io_witness :
    (tss2_tcti_tabrmd_transmit exDecls exWorld (some exReceive) 4 (some [1, 2, 3, 4])).rc
      = TSS2_RC.BAD_SEQUENCE ∧
    (tss2_tcti_tabrmd_receive exDecls exWorld (some exFresh) (some 12)
      (some (List.replicate 12 0)) 0).rc = TSS2_RC.BAD_SEQUENCE :=
  ⟨(wrong_state_no_io exDecls exWorld exFresh exReceive 4 [1, 2, 3, 4] 12
      (some (List.replicate 12 0)) 0 rfl rfl).1.2.2 (by decide) rfl rfl,
    (wrong_state_no_io exDecls exWorld exFresh exReceive 4 [1, 2, 3, 4] 12
      (some (List.replicate 12 0)) 0 rfl rfl).2.2.2.2.2 (by simp) rfl rfl⟩

/-! ## C3: the outcomes of transmit -/

/-- C3: `tss2_tcti_tabrmd_transmit` in state TRANSMIT with a valid context, a non-null
command and `size > 0`, where `write_all` returns `-1`, `0` or a byte count: when it
returns `size` the call succeeds and the state becomes RECEIVE; otherwise the context is
unchanged (state TRANSMIT) and the result is IO_ERROR for `-1`, NO_CONNECTION for `0`,
GENERAL_FAILURE for a positive count other than `size`; the state is RECEIVE exactly
when the call returns success. -/
theorem transmit_outcomes (K : Decls) (w : World) (ctx : Ctx) (size : Nat)
    (command : List Byte)
    (hm : ctx.magic = K.TSS2_TCTI_TABRMD_MAGIC) (hv : ctx.version = K.TSS2_TCTI_TABRMD_VERSION)
    (hst : ctx.state = tcti_tabrmd_state.TRANSMIT) (hsize : 0 < size)
    (hlo : -1 ≤ w.write_ret) (hhi : w.write_ret < 2 ^ 63) :
    (w.write_ret = (size : Int) →
      (tss2_tcti_tabrmd_transmit K w (some ctx) size (some command)).rc = TSS2_RC.SUCCESS ∧
      (tss2_tcti_tabrmd_transmit K w (some ctx) size (some command)).context
        = some { ctx with state := tcti_tabrmd_state.RECEIVE }) ∧
    (w.write_ret ≠ (size : Int) →
      (tss2_tcti_tabrmd_transmit K w (some ctx) size (some command)).context = some ctx) ∧
    (w.write_ret = -1 →
      (tss2_tcti_tabrmd_transmit K w (some ctx) size (some command)).rc = TSS2_RC.IO_ERROR) ∧
    (w.write_ret = 0 →
      (tss2_tcti_tabrmd_transmit K w (some ctx) size (some command)).rc
        = TSS2_RC.NO_CONNECTION) ∧
    (0 < w.write_ret → w.write_ret ≠ (size : Int) →
      (tss2_tcti_tabrmd_transmit K w (some ctx) size (some command)).rc
        = TSS2_RC.GENERAL_FAILURE) ∧
    ((tss2_tcti_tabrmd_transmit K w (some ctx) size (some command)).context.map (·.state)
        = some tcti_tabrmd_state.RECEIVE ↔
      (tss2_tcti_tabrmd_transmit K w (some ctx) size (some command)).rc = TSS2_RC.SUCCESS) := by
  have hs0 : size ≠ 0 := by omega
  have hmod : 0 ≤ w.write_ret → w.write_ret % (SIZE_T : Int) = w.write_ret := by
    intro h
    apply Int.emod_eq_of_lt h
    unfold SIZE_T
    push_cast
    omega
  simp only [tss2_tcti_tabrmd_transmit, hs0, hm, hv, hst, ne_eq, not_true_eq_false, or_self,
    if_false]
  by_cases h1 : w.write_ret = -1
  · have : w.write_ret ≠ (size : Int) := by omega
    simp [h1, hst]
  · by_cases h0 : w.write_ret = 0
    · have : w.write_ret ≠ (size : Int) := by omega
      simp [h0, hst]
      omega
    · have hpos : 0 < w.write_ret := by omega
      rw [if_neg h1, if_neg h0, hmod (by omega)]
      by_cases he : w.write_ret = (size : Int)
      · simp [he, hs0, hsize]
      · simp [he, h1, h0, hst, hpos]

/-- Witness of C3: a 4-byte command fully written. -/
theorem transmit_outcomes_witness :
    (tss2_tcti_tabrmd_transmit exDecls { exWorld with write_ret := 4 } (some exFresh) 4
      (some [1, 2, 3, 4])).context.map (·.state) = some tcti_tabrmd_state.RECEIVE ↔
    (tss2_tcti_tabrmd_transmit exDecls { exWorld with write_ret := 4 } (some exFresh) 4
      (some [1, 2, 3, 4])).rc = TSS2_RC.SUCCESS :=
  (transmit_outcomes exDecls { exWorld with write_ret := 4 } exFresh 4 [1, 2, 3, 4] rfl rfl rfl
    (by decide) (by decide) (by decide)).2.2.2.2.2

/-! ## C4: a header that declares less than its own size -/

/-- C4: a `tss2_tcti_tabrmd_receive` call in state RECEIVE, in size-query mode or with a
buffer, during which the rest of the 10 header bytes `hdr` arrives, where the size field
of `hdr` is below 10, returns MALFORMED_RESPONSE and leaves the state TRANSMIT. -/
theorem receive_malformed (K : Decls) (w : World) (ctx : Ctx) (sz : Nat)
    (response : Option (List Byte)) (timeout : Int) (hdr : List Byte)
    (hm : ctx.magic = K.TSS2_TCTI_TABRMD_MAGIC) (hv : ctx.version = K.TSS2_TCTI_TABRMD_VERSION)
    (hst : ctx.state = tcti_tabrmd_state.RECEIVE) (ht : TSS2_TCTI_TIMEOUT_BLOCK ≤ timeout)
    (hmode : response = none → sz = 0) (hcap : response ≠ none → TPM_HEADER_SIZE ≤ sz)
    (hp1 : w.poll_ret ≠ -1) (hp0 : w.poll_ret ≠ 0)
    (hk : ctx.index < TPM_HEADER_SIZE) (hlen : hdr.length = TPM_HEADER_SIZE)
    (hhb : ctx.header_buf.take ctx.index = hdr.take ctx.index)
    (hav : w.avail.take (TPM_HEADER_SIZE - ctx.index) = hdr.drop ctx.index)
    (hsmall : get_response_size hdr < TPM_HEADER_SIZE) :
    (tss2_tcti_tabrmd_receive K w (some ctx) (some sz) response timeout).rc
      = TSS2_RC.MALFORMED_RESPONSE ∧
    (tss2_tcti_tabrmd_receive K w (some ctx) (some sz) response timeout).context.map (·.state)
      = some tcti_tabrmd_state.TRANSMIT := by
  have h10 : TPM_HEADER_SIZE = 10 := rfl
  have hkl : ctx.index ≤ ctx.header_buf.length := by
    have := congrArg List.length hhb
    simp only [List.length_take] at this
    omega
  have hal : TPM_HEADER_SIZE - ctx.index ≤ w.avail.length := by
    have := congrArg List.length hav
    simp only [List.length_take, List.length_drop] at this
    omega
  have htl : (w.avail.take (TPM_HEADER_SIZE - ctx.index)).length = TPM_HEADER_SIZE - ctx.index := by
    rw [List.length_take]
    omega
  have hfull : (writeAt ctx.header_buf ctx.index
      (w.avail.take (TPM_HEADER_SIZE - ctx.index))).take TPM_HEADER_SIZE = hdr := by
    have h1 := writeAt_take ctx.header_buf ctx.index
      (w.avail.take (TPM_HEADER_SIZE - ctx.index)) hkl
    have e : ctx.index + (TPM_HEADER_SIZE - ctx.index) = TPM_HEADER_SIZE := by omega
    rw [htl, e] at h1
    rw [h1, hhb, hav, List.take_append_drop]
  have hgs : get_response_size (writeAt ctx.header_buf ctx.index
      (w.avail.take (TPM_HEADER_SIZE - ctx.index))) < TPM_HEADER_SIZE := by
    rw [← get_response_size_take _ TPM_HEADER_SIZE (by omega), hfull]
    exact hsmall
  rw [receive_of_ready K w ctx sz response timeout hm hv hst ht hmode hcap hp1 hp0,
    receive_header_full (polled w ctx.fd timeout) ctx hk hal]
  have hpa : (polled w ctx.fd timeout).avail = w.avail := rfl
  simp only [hpa, hgs, if_true]
  refine ⟨?_, ?_⟩ <;> trivial

/-- Witness of C4: the malformed example header arrives whole on a size query. -/
theorem receive_malformed_witness :
    (tss2_tcti_tabrmd_receive exDecls { exWorld with avail := exMalformed } (some exReceive)
      (some 0) none 0).rc = TSS2_RC.MALFORMED_RESPONSE ∧
    (tss2_tcti_tabrmd_receive exDecls { exWorld with avail := exMalformed } (some exReceive)
      (some 0) none 0).context.map (·.state) = some tcti_tabrmd_state.TRANSMIT :=
  receive_malformed exDecls { exWorld with avail := exMalformed } exReceive 0 none 0 exMalformed
    rfl rfl rfl (by decide) (by simp) (by simp) (by decide) (by decide) (by decide) rfl
    (by decide) (by decide) (by decide)

/-! ## C8: the poll times out -/

/-- C8: a `tss2_tcti_tabrmd_receive` call in state RECEIVE with valid arguments in which
`tcti_tabrmd_poll` returns `-1` returns TRY_AGAIN, makes no call but the poll (no read),
and leaves the context, the caller's `*size` and buffer, and the peer's pending bytes
as they were. -/
theorem receive_poll_timeout (K : Decls) (w : World) (ctx : Ctx) (sz : Nat)
    (response : Option (List Byte)) (timeout : Int)
    (hm : ctx.magic = K.TSS2_TCTI_TABRMD_MAGIC) (hv : ctx.version = K.TSS2_TCTI_TABRMD_VERSION)
    (hst : ctx.state = tcti_tabrmd_state.RECEIVE) (ht : TSS2_TCTI_TIMEOUT_BLOCK ≤ timeout)
    (hmode : response = none → sz = 0) (hcap : response ≠ none → TPM_HEADER_SIZE ≤ sz)
    (hpoll : (tcti_tabrmd_poll w ctx.fd timeout).1 = -1) :
    (tss2_tcti_tabrmd_receive K w (some ctx) (some sz) response timeout).rc
      = TSS2_RC.TRY_AGAIN ∧
    (tss2_tcti_tabrmd_receive K w (some ctx) (some sz) response timeout).context = some ctx ∧
    (tss2_tcti_tabrmd_receive K w (some ctx) (some sz) response timeout).size = some sz ∧
    (tss2_tcti_tabrmd_receive K w (some ctx) (some sz) response timeout).response = response ∧
    (tss2_tcti_tabrmd_receive K w (some ctx) (some sz) response timeout).world.toPeer
      = w.toPeer ∧
    (tss2_tcti_tabrmd_receive K w (some ctx) (some sz) response timeout).world.trace
      = w.trace ++ [IOEvent.poll ctx.fd timeout] := by
  have h1 : ¬ (response = none ∧ sz ≠ 0) := fun h => h.2 (hmode h.1)
  have h2 : ¬ (response ≠ none ∧ sz < TPM_HEADER_SIZE) := fun h => by
    have := hcap h.1
    omega
  have h3 : ¬ timeout < TSS2_TCTI_TIMEOUT_BLOCK := by omega
  have hw : (tcti_tabrmd_poll w ctx.fd timeout).2 = polled w ctx.fd timeout := by
    unfold tcti_tabrmd_poll polled
    split_ifs <;> rfl
  simp only [tss2_tcti_tabrmd_receive, h1, h2, h3, hm, hv, hst, hpoll, hw, ne_eq,
    not_true_eq_false, or_self, if_false, if_true]
  refine ⟨?_, ?_, ?_, ?_, ?_, ?_⟩ <;> trivial

/-- Witness of C8: `poll` returns 0 (timeout) while a 12-byte buffer waits for a frame. -/
theorem receive_poll_timeout_witness :
    (tss2_tcti_tabrmd_receive exDecls { exWorld with poll_ret := 0 } (some exReceive)
      (some 12) (some (List.replicate 12 0)) 100).rc = TSS2_RC.TRY_AGAIN ∧
    (tss2_tcti_tabrmd_receive exDecls { exWorld with poll_ret := 0 } (some exReceive)
      (some 12) (some (List.replicate 12 0)) 100).context = some exReceive :=
  ⟨(receive_poll_timeout exDecls { exWorld with poll_ret := 0 } exReceive 12
      (some (List.replicate 12 0)) 100 rfl rfl rfl (by decide) (by simp) (by decide) rfl).1,
    (receive_poll_timeout exDecls { exWorld with poll_ret := 0 } exReceive 12
      (some (List.replicate 12 0)) 100 rfl rfl rfl (by decide) (by simp) (by decide) rfl).2.1⟩

/-! ## C5 and C7: the header completes, the body is read by a later call -/

theorem receive_header_complete (frame : List Byte) (ctx : Ctx) (w : World) (a2 : List Byte)
    (hs10 : TPM_HEADER_SIZE ≤ frame.length) (hsize : get_response_size frame = frame.length)
    (hk : ctx.index ≤ TPM_HEADER_SIZE)
    (hhb : ctx.header_buf.take ctx.index = frame.take ctx.index)
    (hparsed : ctx.index = TPM_HEADER_SIZE → ctx.header.size = frame.length)
    (hdrop : frame.drop ctx.index = w.avail ++ a2)
    (ha : TPM_HEADER_SIZE - ctx.index ≤ w.avail.length) :
    ∃ ctx1 w1, receive_header w ctx = (none, ctx1, w1) ∧
      ctx1.index = TPM_HEADER_SIZE ∧ ctx1.header.size = frame.length ∧
      ctx1.header_buf.take TPM_HEADER_SIZE = frame.take TPM_HEADER_SIZE ∧
      ctx1.state = ctx.state ∧ ctx1.magic = ctx.magic ∧ ctx1.version = ctx.version ∧
      (ctx.index = TPM_HEADER_SIZE → ctx1 = ctx) ∧
      w1.avail = w.avail.drop (TPM_HEADER_SIZE - ctx.index) ∧
      w1.avail ++ a2 = frame.drop TPM_HEADER_SIZE := by
  have h10 : TPM_HEADER_SIZE = 10 := rfl
  by_cases hlt : ctx.index < TPM_HEADER_SIZE
  · have hkl : ctx.index ≤ ctx.header_buf.length := by
      have := congrArg List.length hhb
      simp only [List.length_take] at this
      omega
    have hsplit : frame.drop ctx.index = w.avail.take (TPM_HEADER_SIZE - ctx.index)
        ++ (w.avail.drop (TPM_HEADER_SIZE - ctx.index) ++ a2) := by
      rw [hdrop, ← List.append_assoc, List.take_append_drop]
    have hcl : (w.avail.take (TPM_HEADER_SIZE - ctx.index)).length
        = TPM_HEADER_SIZE - ctx.index := by
      rw [List.length_take]
      omega
    have e : ctx.index + (TPM_HEADER_SIZE - ctx.index) = TPM_HEADER_SIZE := by omega
    have hhb1 : (writeAt ctx.header_buf ctx.index
        (w.avail.take (TPM_HEADER_SIZE - ctx.index))).take TPM_HEADER_SIZE
        = frame.take TPM_HEADER_SIZE := by
      have h1 := writeAt_take ctx.header_buf ctx.index
        (w.avail.take (TPM_HEADER_SIZE - ctx.index)) hkl
      have h2 := take_append_of_drop frame _ _ ctx.index hsplit
      rw [hcl, e] at h1 h2
      rw [h1, hhb, h2]
    have hgs : get_response_size (writeAt ctx.header_buf ctx.index
        (w.avail.take (TPM_HEADER_SIZE - ctx.index))) = frame.length := by
      rw [← get_response_size_take _ TPM_HEADER_SIZE (by omega), hhb1,
        get_response_size_take _ TPM_HEADER_SIZE (by omega), hsize]
    have hnm : ¬ get_response_size (writeAt ctx.header_buf ctx.index
        (w.avail.take (TPM_HEADER_SIZE - ctx.index))) < TPM_HEADER_SIZE := by
      rw [hgs]
      omega
    rw [receive_header_full w ctx hlt ha]
    simp only [hnm, if_false]
    refine ⟨_, _, rfl, rfl, hgs, hhb1, rfl, rfl, rfl, fun h => by omega, rfl, ?_⟩
    have := drop_add_of_drop frame _ _ ctx.index hsplit
    rw [hcl, e] at this
    exact this.symm
  · have hk10 : ctx.index = TPM_HEADER_SIZE := by omega
    rw [receive_header_skip w ctx hlt]
    refine ⟨ctx, w, rfl, hk10, hparsed hk10, ?_, rfl, rfl, rfl, fun _ => rfl, ?_, ?_⟩
    · rw [← hk10]
      exact hhb
    · rw [hk10]
      simp
    · rw [← hk10]
      exact hdrop.symm

theorem receive_rest_full (K : Decls) (frame : List Byte) (ctx : Ctx) (w : World)
    (buf : List Byte) (c : Nat) (timeout : Int)
    (hm : ctx.magic = K.TSS2_TCTI_TABRMD_MAGIC) (hv : ctx.version = K.TSS2_TCTI_TABRMD_VERSION)
    (hst : ctx.state = tcti_tabrmd_state.RECEIVE) (ht : TSS2_TCTI_TIMEOUT_BLOCK ≤ timeout)
    (hp1 : w.poll_ret ≠ -1) (hp0 : w.poll_ret ≠ 0)
    (hs : TPM_HEADER_SIZE < frame.length) (hlt : frame.length < SIZE_T)
    (hk : ctx.index = TPM_HEADER_SIZE) (hhdr : ctx.header.size = frame.length)
    (hhb : ctx.header_buf.take TPM_HEADER_SIZE = frame.take TPM_HEADER_SIZE)
    (hav : w.avail = frame.drop TPM_HEADER_SIZE)
    (hc : frame.length ≤ c) (hbuf : buf.length = c) :
    ∃ out,
      (tss2_tcti_tabrmd_receive K w (some ctx) (some c) (some buf) timeout).rc
        = TSS2_RC.SUCCESS ∧
      (tss2_tcti_tabrmd_receive K w (some ctx) (some c) (some buf) timeout).size
        = some frame.length ∧
      (tss2_tcti_tabrmd_receive K w (some ctx) (some c) (some buf) timeout).response
        = some out ∧
      out.take frame.length = frame ∧ out.length = c ∧
      (tss2_tcti_tabrmd_receive K w (some ctx) (some c) (some buf) timeout).context.map
        (·.state) = some tcti_tabrmd_state.TRANSMIT ∧
      (tss2_tcti_tabrmd_receive K w (some ctx) (some c) (some buf) timeout).context.map
        (·.index) = some 0 ∧
      (tss2_tcti_tabrmd_receive K w (some ctx) (some c) (some buf) timeout).world.avail
        = [] := by
  have h10 : TPM_HEADER_SIZE = 10 := rfl
  have hpa : (polled w ctx.fd timeout).avail = frame.drop TPM_HEADER_SIZE := hav
  have hdl : (frame.drop TPM_HEADER_SIZE).length = frame.length - TPM_HEADER_SIZE := by simp
  have hhl : (ctx.header_buf.take TPM_HEADER_SIZE).length = TPM_HEADER_SIZE := by
    rw [hhb, List.length_take]
    omega
  have hcopy : copy_header ctx buf = writeAt buf 0 (ctx.header_buf.take TPM_HEADER_SIZE) := by
    simp [copy_header, hk]
  have hcl : (copy_header ctx buf).length = c := by
    rw [hcopy, writeAt_length _ _ _ (by omega)]
    exact hbuf
  have hct : (copy_header ctx buf).take TPM_HEADER_SIZE = frame.take TPM_HEADER_SIZE := by
    have h := writeAt_take buf 0 (ctx.header_buf.take TPM_HEADER_SIZE) (Nat.zero_le _)
    rw [hhl, Nat.zero_add] at h
    rw [hcopy, h, hhb]
    simp
  rw [receive_of_ready K w ctx c (some buf) timeout hm hv hst ht (fun h => by simp at h)
    (fun _ => by omega) hp1 hp0, receive_header_skip _ ctx (by omega)]
  simp only []
  rw [receive_body_read_full _ ctx c buf (by omega) (by omega) (by omega) (by omega)
    (by rw [hpa, hdl]; omega)]
  have htk : (frame.drop TPM_HEADER_SIZE).take (ctx.header.size - ctx.index)
      = frame.drop TPM_HEADER_SIZE := List.take_of_length_le (by rw [hdl]; omega)
  refine ⟨_, rfl, by simp [hhdr], rfl, ?_, ?_, rfl, rfl, ?_⟩
  · rw [hpa, htk]
    have h := writeAt_take (copy_header ctx buf) ctx.index (frame.drop TPM_HEADER_SIZE)
      (by omega)
    have e : ctx.index + (frame.drop TPM_HEADER_SIZE).length = frame.length := by
      rw [hdl]
      omega
    rw [e, hk, hct, List.take_append_drop] at h
    rw [hk]
    exact h
  · rw [hpa, htk, writeAt_length _ _ _ (by rw [hdl]; omega)]
    exact hcl
  · show List.drop _ (polled w ctx.fd timeout).avail = []
    rw [hpa]
    apply List.drop_eq_nil_of_le
    rw [hdl]
    omega

/-- C5, as stated, fails: after the first 11 bytes of the 12-byte example frame have been
received into a 12-byte buffer (index 11), a receive with a 10-byte buffer returns
INSUFFICIENT_BUFFER and leaves the context as it is, and the following receive with a
fresh 12-byte buffer and the last byte readable returns success with `*size = 12` but
the buffer holds only that last byte at offset 11, not the frame. -/
theorem fresh_buffer_mid_body_lacks_frame :
    (run exDecls ⟨some exFresh, exWorld⟩
      [({ exWorld.toPeer with write_ret := 4 }, Call.transmit 4 (some [1, 2, 3, 4])),
       ({ exWorld.toPeer with avail := exFrame.take 11 },
          Call.receive (some 12) (some (List.replicate 12 0)) 0)]).context
      = some exMidBody ∧
    (tss2_tcti_tabrmd_receive exDecls { exWorld with avail := [0xbb] } (some exMidBody)
      (some 10) (some (List.replicate 10 0)) 0).rc = TSS2_RC.INSUFFICIENT_BUFFER ∧
    (tss2_tcti_tabrmd_receive exDecls { exWorld with avail := [0xbb] } (some exMidBody)
      (some 10) (some (List.replicate 10 0)) 0).context = some exMidBody ∧
    (tss2_tcti_tabrmd_receive exDecls { exWorld with avail := [0xbb] } (some exMidBody)
      (some 12) (some (List.replicate 12 0)) 0).rc = TSS2_RC.SUCCESS ∧
    (tss2_tcti_tabrmd_receive exDecls { exWorld with avail := [0xbb] } (some exMidBody)
      (some 12) (some (List.replicate 12 0)) 0).size = some 12 ∧
    (tss2_tcti_tabrmd_receive exDecls { exWorld with avail := [0xbb] } (some exMidBody)
      (some 12) (some (List.replicate 12 0)) 0).response
      = some (List.replicate 11 0 ++ [0xbb]) ∧
    (tss2_tcti_tabrmd_receive exDecls { exWorld with avail := [0xbb] } (some exMidBody)
      (some 12) (some (List.replicate 12 0)) 0).response ≠ some exFrame := by
  refine ⟨?_, ?_, ?_, ?_, ?_, ?_, ?_⟩ <;> decide

theorem copy_header_cap (frame : List Byte) (ctx : Ctx) (buf : List Byte) (c : Nat)
    (hs10 : TPM_HEADER_SIZE ≤ frame.length) (hc : frame.length ≤ c)
    (hhb : ctx.header_buf.take TPM_HEADER_SIZE = frame.take TPM_HEADER_SIZE)
    (hlen : buf.length = c)
    (hgot : ctx.index ≠ TPM_HEADER_SIZE → buf.take ctx.index = frame.take ctx.index) :
    (copy_header ctx buf).take ctx.index = frame.take ctx.index ∧
      (copy_header ctx buf).length = c := by
  unfold copy_header
  by_cases hk : ctx.index = TPM_HEADER_SIZE
  · have hl : (ctx.header_buf.take TPM_HEADER_SIZE).length = TPM_HEADER_SIZE := by
      rw [hhb, List.length_take]
      omega
    rw [if_pos hk]
    constructor
    · have h := writeAt_take buf 0 (ctx.header_buf.take TPM_HEADER_SIZE) (Nat.zero_le _)
      rw [hl, Nat.zero_add] at h
      rw [hk, h, hhb]
      simp
    · rw [writeAt_length _ _ _ (by omega)]
      exact hlen
  · rw [if_neg hk]
    exact ⟨hgot hk, hlen⟩

theorem receive_rest_from (K : Decls) (frame : List Byte) (ctx : Ctx) (w : World)
    (buf : List Byte) (c : Nat) (timeout : Int)
    (hm : ctx.magic = K.TSS2_TCTI_TABRMD_MAGIC) (hv : ctx.version = K.TSS2_TCTI_TABRMD_VERSION)
    (hst : ctx.state = tcti_tabrmd_state.RECEIVE) (ht : TSS2_TCTI_TIMEOUT_BLOCK ≤ timeout)
    (hp1 : w.poll_ret ≠ -1) (hp0 : w.poll_ret ≠ 0)
    (hs : TPM_HEADER_SIZE < frame.length) (hlt : frame.length < SIZE_T)
    (hk10 : TPM_HEADER_SIZE ≤ ctx.index) (hklt : ctx.index < frame.length)
    (hhdr : ctx.header.size = frame.length)
    (hhb : ctx.header_buf.take TPM_HEADER_SIZE = frame.take TPM_HEADER_SIZE)
    (hav : w.avail = frame.drop ctx.index)
    (hc : frame.length ≤ c) (hbuf : buf.length = c)
    (hgot : ctx.index ≠ TPM_HEADER_SIZE → buf.take ctx.index = frame.take ctx.index) :
    ∃ out,
      (tss2_tcti_tabrmd_receive K w (some ctx) (some c) (some buf) timeout).rc
        = TSS2_RC.SUCCESS ∧
      (tss2_tcti_tabrmd_receive K w (some ctx) (some c) (some buf) timeout).size
        = some frame.length ∧
      (tss2_tcti_tabrmd_receive K w (some ctx) (some c) (some buf) timeout).response
        = some out ∧
      out.take frame.length = frame ∧ out.length = c ∧
      (tss2_tcti_tabrmd_receive K w (some ctx) (some c) (some buf) timeout).context.map
        (·.state) = some tcti_tabrmd_state.TRANSMIT ∧
      (tss2_tcti_tabrmd_receive K w (some ctx) (some c) (some buf) timeout).context.map
        (·.index) = some 0 ∧
      (tss2_tcti_tabrmd_receive K w (some ctx) (some c) (some buf) timeout).world.avail
        = [] := by
  have h10 : TPM_HEADER_SIZE = 10 := rfl
  have hpa : (polled w ctx.fd timeout).avail = frame.drop ctx.index := hav
  have hdl : (frame.drop ctx.index).length = frame.length - ctx.index := by simp
  obtain ⟨hct, hcl⟩ := copy_header_cap frame ctx buf c (by omega) hc hhb hbuf hgot
  rw [receive_of_ready K w ctx c (some buf) timeout hm hv hst ht (fun h => by simp at h)
    (fun _ => by omega) hp1 hp0, receive_header_skip _ ctx (by omega)]
  simp only []
  rw [receive_body_read_full _ ctx c buf (by omega) (by omega) (by omega) (by omega)
    (by rw [hpa, hdl]; omega)]
  have htk : (frame.drop ctx.index).take (ctx.header.size - ctx.index)
      = frame.drop ctx.index := List.take_of_length_le (by rw [hdl]; omega)
  refine ⟨_, rfl, by simp [hhdr], rfl, ?_, ?_, rfl, rfl, ?_⟩
  · rw [hpa, htk]
    have h := writeAt_take (copy_header ctx buf) ctx.index (frame.drop ctx.index) (by omega)
    have e : ctx.index + (frame.drop ctx.index).length = frame.length := by
      rw [hdl]
      omega
    rw [e, hct, List.take_append_drop] at h
    exact h
  · rw [hpa, htk, writeAt_length _ _ _ (by rw [hdl]; omega)]
    exact hcl
  · show List.drop _ (polled w ctx.fd timeout).avail = []
    rw [hpa]
    apply List.drop_eq_nil_of_le
    rw [hdl]
    omega

theorem receive_header_ready (frame : List Byte) (ctx : Ctx) (w : World) (a2 : List Byte)
    (hs10 : TPM_HEADER_SIZE ≤ frame.length) (hsize : get_response_size frame = frame.length)
    (hhb : ctx.header_buf.take (min ctx.index TPM_HEADER_SIZE)
      = frame.take (min ctx.index TPM_HEADER_SIZE))
    (hparsed : TPM_HEADER_SIZE ≤ ctx.index → ctx.header.size = frame.length)
    (hdrop : frame.drop ctx.index = w.avail ++ a2)
    (ha : TPM_HEADER_SIZE - ctx.index ≤ w.avail.length) :
    ∃ ctx1 w1, receive_header w ctx = (none, ctx1, w1) ∧
      ctx1.index = max ctx.index TPM_HEADER_SIZE ∧ ctx1.header.size = frame.length ∧
      ctx1.header_buf.take TPM_HEADER_SIZE = frame.take TPM_HEADER_SIZE ∧
      ctx1.state = ctx.state ∧ ctx1.magic = ctx.magic ∧ ctx1.version = ctx.version ∧
      (TPM_HEADER_SIZE ≤ ctx.index → ctx1 = ctx) ∧
      w1.avail = w.avail.drop (TPM_HEADER_SIZE - ctx.index) ∧
      w1.avail ++ a2 = frame.drop (max ctx.index TPM_HEADER_SIZE) := by
  have h10 : TPM_HEADER_SIZE = 10 := rfl
  by_cases hk : ctx.index ≤ TPM_HEADER_SIZE
  · have hmin : min ctx.index TPM_HEADER_SIZE = ctx.index := by omega
    have hmax : max ctx.index TPM_HEADER_SIZE = TPM_HEADER_SIZE := by omega
    rw [hmin] at hhb
    obtain ⟨ctx1, w1, heq, hi1, hh1, hb1, hs1, hm1, hv1, hsame, hav1, hrest1⟩ :=
      receive_header_complete frame ctx w a2 hs10 hsize hk hhb
        (fun h => hparsed (by omega)) hdrop ha
    rw [hmax]
    exact ⟨ctx1, w1, heq, hi1, hh1, hb1, hs1, hm1, hv1, fun h => hsame (by omega), hav1,
      hrest1⟩
  · have hmin : min ctx.index TPM_HEADER_SIZE = TPM_HEADER_SIZE := by omega
    have hmax : max ctx.index TPM_HEADER_SIZE = ctx.index := by omega
    rw [hmin] at hhb
    rw [receive_header_skip w ctx (by omega), hmax]
    have hz : TPM_HEADER_SIZE - ctx.index = 0 := by omega
    exact ⟨ctx, w, rfl, rfl, hparsed (by omega), hhb, rfl, rfl, rfl, fun _ => rfl,
      by rw [hz]; rfl, hdrop.symm⟩

/-- C5, amended: the context holds the first `ctx.index` bytes of a frame of size `s > 10`
(the header bytes read so far are in the header buffer, and once the header is complete
it is parsed), the rest of the header is readable (`w.avail`, with `a2` still to come),
and receive is called in state RECEIVE with a buffer of capacity `c`, `10 ≤ c < s`: the
call returns INSUFFICIENT_BUFFER, the state stays RECEIVE, only the missing header bytes
are consumed (no body byte), the context is unchanged when the header was already
complete and else the index ends at 10, `*size` is untouched; and a following receive
with a buffer of capacity `c2 ≥ s` and the rest of the frame readable, where the buffer
already holds the first `ctx.index` bytes of the frame when body bytes had been
delivered (`ctx.index > 10`; any buffer otherwise), returns success with `*size = s`,
the first `s` bytes of the buffer equal to the frame, state TRANSMIT and index 0. -/
theorem insufficient_buffer_then_resume (K : Decls) (w : World) (ctx : Ctx)
    (buf : List Byte) (c : Nat) (timeout : Int) (frame a2 : List Byte)
    (hm : ctx.magic = K.TSS2_TCTI_TABRMD_MAGIC) (hv : ctx.version = K.TSS2_TCTI_TABRMD_VERSION)
    (hst : ctx.state = tcti_tabrmd_state.RECEIVE) (ht : TSS2_TCTI_TIMEOUT_BLOCK ≤ timeout)
    (hp1 : w.poll_ret ≠ -1) (hp0 : w.poll_ret ≠ 0)
    (hs : TPM_HEADER_SIZE < frame.length) (hsize : get_response_size frame = frame.length)
    (hklt : ctx.index < frame.length)
    (hhb : ctx.header_buf.take (min ctx.index TPM_HEADER_SIZE)
      = frame.take (min ctx.index TPM_HEADER_SIZE))
    (hparsed : TPM_HEADER_SIZE ≤ ctx.index → ctx.header.size = frame.length)
    (hdrop : frame.drop ctx.index = w.avail ++ a2)
    (ha : TPM_HEADER_SIZE - ctx.index ≤ w.avail.length)
    (hc10 : TPM_HEADER_SIZE ≤ c) (hcs : c < frame.length) :
    ∃ ctx1,
      (tss2_tcti_tabrmd_receive K w (some ctx) (some c) (some buf) timeout).rc
        = TSS2_RC.INSUFFICIENT_BUFFER ∧
      (tss2_tcti_tabrmd_receive K w (some ctx) (some c) (some buf) timeout).context
        = some ctx1 ∧
      ctx1.state = tcti_tabrmd_state.RECEIVE ∧
      ctx1.index = max ctx.index TPM_HEADER_SIZE ∧
      (TPM_HEADER_SIZE ≤ ctx.index → ctx1 = ctx) ∧
      (tss2_tcti_tabrmd_receive K w (some ctx) (some c) (some buf) timeout).size = some c ∧
      (tss2_tcti_tabrmd_receive K w (some ctx) (some c) (some buf) timeout).world.avail
        = w.avail.drop (TPM_HEADER_SIZE - ctx.index) ∧
      (tss2_tcti_tabrmd_receive K w (some ctx) (some c) (some buf) timeout).world.avail ++ a2
        = frame.drop (max ctx.index TPM_HEADER_SIZE) ∧
      ∀ (w2 : World) (buf2 : List Byte) (c2 : Nat) (timeout2 : Int),
        w2.avail = (tss2_tcti_tabrmd_receive K w (some ctx) (some c) (some buf)
          timeout).world.avail ++ a2 →
        w2.poll_ret ≠ -1 → w2.poll_ret ≠ 0 → TSS2_TCTI_TIMEOUT_BLOCK ≤ timeout2 →
        frame.length ≤ c2 → buf2.length = c2 →
        (TPM_HEADER_SIZE < ctx.index → buf2.take ctx.index = frame.take ctx.index) →
        ∃ out,
          (tss2_tcti_tabrmd_receive K w2 (some ctx1) (some c2) (some buf2) timeout2).rc
            = TSS2_RC.SUCCESS ∧
          (tss2_tcti_tabrmd_receive K w2 (some ctx1) (some c2) (some buf2) timeout2).size
            = some frame.length ∧
          (tss2_tcti_tabrmd_receive K w2 (some ctx1) (some c2) (some buf2) timeout2).response
            = some out ∧
          out.take frame.length = frame ∧ out.length = c2 ∧
          (tss2_tcti_tabrmd_receive K w2 (some ctx1) (some c2) (some buf2)
            timeout2).context.map (·.state) = some tcti_tabrmd_state.TRANSMIT ∧
          (tss2_tcti_tabrmd_receive K w2 (some ctx1) (some c2) (some buf2)
            timeout2).context.map (·.index) = some 0 ∧
          (tss2_tcti_tabrmd_receive K w2 (some ctx1) (some c2) (some buf2)
            timeout2).world.avail = [] := by
  have h10 : TPM_HEADER_SIZE = 10 := rfl
  have hlt : frame.length < SIZE_T := by
    have := get_response_size_lt frame
    rw [hsize] at this
    unfold SIZE_T
    omega
  obtain ⟨ctx1, w1, heq, hi1, hh1, hb1, hs1, hm1, hv1, hsame, hav1, hrest1⟩ :=
    receive_header_ready frame ctx (polled w ctx.fd timeout) a2 (by omega) hsize hhb
      hparsed hdrop ha
  have hr1 : tss2_tcti_tabrmd_receive K w (some ctx) (some c) (some buf) timeout
      = ⟨TSS2_RC.INSUFFICIENT_BUFFER, some ctx1, some c, some (copy_header ctx1 buf), w1⟩ := by
    rw [receive_of_ready K w ctx c (some buf) timeout hm hv hst ht (fun h => by simp at h)
      (fun _ => hc10) hp1 hp0, heq]
    simp only []
    exact receive_body_insufficient w1 ctx1 c buf (by omega) (by omega)
  rw [hr1]
  refine ⟨ctx1, rfl, rfl, by rw [hs1, hst], hi1, hsame, rfl, hav1, hrest1, ?_⟩
  intro w2 buf2 c2 timeout2 hw2 hq1 hq0 ht2 hc2 hbuf2 hheld
  refine receive_rest_from K frame ctx1 w2 buf2 c2 timeout2 (hm1.trans hm) (hv1.trans hv)
    (hs1.trans hst) ht2 hq1 hq0 hs hlt (by omega) (by omega) hh1 hb1
    (by rw [hi1]; exact hw2.trans hrest1) hc2 hbuf2 ?_
  intro hne
  have hgt : TPM_HEADER_SIZE < ctx.index := by omega
  rw [hsame (by omega)]
  exact hheld hgt

/-- Witness of the amended C5: with 11 bytes of the 12-byte example frame already received,
a 10-byte buffer is refused and a 12-byte buffer holding those 11 bytes completes the
frame. -/
theorem insufficient_buffer_then_resume_witness :
    (tss2_tcti_tabrmd_receive exDecls { exWorld with avail := [0xbb] } (some exMidBody)
      (some 10) (some (List.replicate 10 0)) 0).rc = TSS2_RC.INSUFFICIENT_BUFFER ∧
    ∃ ctx1 out,
      (tss2_tcti_tabrmd_receive exDecls { exWorld with avail := [0xbb] } (some exMidBody)
        (some 10) (some (List.replicate 10 0)) 0).context = some ctx1 ∧
      (tss2_tcti_tabrmd_receive exDecls { exWorld with avail := [0xbb] } (some ctx1)
        (some 12) (some (exFrame.take 11 ++ [0])) 0).rc = TSS2_RC.SUCCESS ∧
      (tss2_tcti_tabrmd_receive exDecls { exWorld with avail := [0xbb] } (some ctx1)
        (some 12) (some (exFrame.take 11 ++ [0])) 0).response = some out ∧
      out.take exFrame.length = exFrame :=
  match insufficient_buffer_then_resume exDecls { exWorld with avail := [0xbb] } exMidBody
      (List.replicate 10 0) 10 0 exFrame [] rfl rfl rfl (by decide) (by decide) (by decide)
      (by decide) (by decide) (by decide) (by decide) (by decide) (by decide) (by decide)
      (by decide) (by decide) with
  | ⟨ctx1, hrc, hctx, _, _, _, _, _, _, hnext⟩ =>
    ⟨hrc,
      match hnext { exWorld with avail := [0xbb] } (exFrame.take 11 ++ [0]) 12 0
          (by decide) (by decide) (by decide) (by decide) (by decide) (by decide)
          (by decide) with
      | ⟨out, h1, _, h3, h4, _⟩ => ⟨ctx1, out, hctx, h1, h3, h4⟩⟩

/-- A size query within the receive of a frame: the context holds the first
`ctx.index ≤ 10` bytes of a frame of size `s ≥ 10` and the rest of the header is readable:
a size query (`response == NULL`, `*size == 0`) in state RECEIVE returns success with
`*size = s`, the big-endian value of header bytes 2..5, consumes only the missing header
bytes and leaves the state RECEIVE; a following receive with a buffer of capacity `s` and
the whole body readable returns success with the same `*size = s` and the buffer equal
to the frame, so starting with the same 10 header bytes. -/
theorem size_query_round_trip (K : Decls) (w : World) (ctx : Ctx) (timeout : Int)
    (frame a2 : List Byte)
    (hm : ctx.magic = K.TSS2_TCTI_TABRMD_MAGIC) (hv : ctx.version = K.TSS2_TCTI_TABRMD_VERSION)
    (hst : ctx.state = tcti_tabrmd_state.RECEIVE) (ht : TSS2_TCTI_TIMEOUT_BLOCK ≤ timeout)
    (hp1 : w.poll_ret ≠ -1) (hp0 : w.poll_ret ≠ 0)
    (hs : TPM_HEADER_SIZE ≤ frame.length) (hsize : get_response_size frame = frame.length)
    (hk : ctx.index ≤ TPM_HEADER_SIZE)
    (hhb : ctx.header_buf.take ctx.index = frame.take ctx.index)
    (hparsed : ctx.index = TPM_HEADER_SIZE → ctx.header.size = frame.length)
    (hdrop : frame.drop ctx.index = w.avail ++ a2)
    (ha : TPM_HEADER_SIZE - ctx.index ≤ w.avail.length) :
    ∃ ctx1,
      (tss2_tcti_tabrmd_receive K w (some ctx) (some 0) none timeout).rc = TSS2_RC.SUCCESS ∧
      (tss2_tcti_tabrmd_receive K w (some ctx) (some 0) none timeout).size
        = some (be ((frame.drop 2).take 4)) ∧
      be ((frame.drop 2).take 4) = frame.length ∧
      (tss2_tcti_tabrmd_receive K w (some ctx) (some 0) none timeout).context = some ctx1 ∧
      ctx1.state = tcti_tabrmd_state.RECEIVE ∧
      (tss2_tcti_tabrmd_receive K w (some ctx) (some 0) none timeout).world.avail
        = w.avail.drop (TPM_HEADER_SIZE - ctx.index) ∧
      (tss2_tcti_tabrmd_receive K w (some ctx) (some 0) none timeout).world.avail ++ a2
        = frame.drop TPM_HEADER_SIZE ∧
      ∀ (w2 : World) (buf2 : List Byte) (timeout2 : Int),
        w2.avail = (tss2_tcti_tabrmd_receive K w (some ctx) (some 0) none
          timeout).world.avail ++ a2 →
        w2.poll_ret ≠ -1 → w2.poll_ret ≠ 0 → TSS2_TCTI_TIMEOUT_BLOCK ≤ timeout2 →
        buf2.length = frame.length →
        (tss2_tcti_tabrmd_receive K w2 (some ctx1) (some frame.length) (some buf2)
          timeout2).rc = TSS2_RC.SUCCESS ∧
        (tss2_tcti_tabrmd_receive K w2 (some ctx1) (some frame.length) (some buf2)
          timeout2).size
          = (tss2_tcti_tabrmd_receive K w (some ctx) (some 0) none timeout).size ∧
        (tss2_tcti_tabrmd_receive K w2 (some ctx1) (some frame.length) (some buf2)
          timeout2).response = some frame ∧
        (tss2_tcti_tabrmd_receive K w2 (some ctx1) (some frame.length) (some buf2)
          timeout2).response.map (·.take TPM_HEADER_SIZE)
          = some (frame.take TPM_HEADER_SIZE) := by
  have h10 : TPM_HEADER_SIZE = 10 := rfl
  have hlt : frame.length < SIZE_T := by
    have := get_response_size_lt frame
    rw [hsize] at this
    unfold SIZE_T
    omega
  obtain ⟨ctx1, w1, heq, hi1, hh1, hb1, hs1, hm1, hv1, _, hav1, hrest1⟩ :=
    receive_header_complete frame ctx (polled w ctx.fd timeout) a2 hs hsize hk hhb
      hparsed hdrop ha
  have hr1 : tss2_tcti_tabrmd_receive K w (some ctx) (some 0) none timeout
      = ⟨TSS2_RC.SUCCESS, some ctx1, some frame.length, none, w1⟩ := by
    rw [receive_of_ready K w ctx 0 none timeout hm hv hst ht (fun _ => rfl)
      (fun h => absurd rfl h) hp1 hp0, heq]
    simp only [receive_body, hh1]
  have hbe : be ((frame.drop 2).take 4) = frame.length := hsize
  rw [hr1]
  refine ⟨ctx1, rfl, by rw [hbe], hbe, rfl, by rw [hs1, hst], hav1, hrest1, ?_⟩
  intro w2 buf2 timeout2 hw2 hq1 hq0 ht2 hbuf2
  have hw2a : w2.avail = frame.drop TPM_HEADER_SIZE := hw2.trans hrest1
  have hd := (receive_body_chunk K frame ctx1 buf2 (polled w2 ctx1.fd timeout2) []
    (hm1.trans hm) (hv1.trans hv) (hs1.trans hst) hs hlt (by omega) (by omega) (by omega) hb1
    hh1 hbuf2 (fun h => absurd hi1 h) (by
      rw [hi1, List.append_nil]
      exact hw2a.symm)).1 rfl
  rw [receive_of_ready K w2 ctx1 frame.length (some buf2) timeout2 (hm1.trans hm)
    (hv1.trans hv) (hs1.trans hst) ht2 (fun h => by simp at h) (fun _ => hs) hq1 hq0,
    receive_header_skip _ ctx1 (by omega)]
  simp only []
  obtain ⟨d1, _, _, d4, d5⟩ := hd
  exact ⟨d1, d4, d5, by rw [d5]; rfl⟩

/-- A size query on the 12-byte example frame from index 0, then the full read. -/
theorem size_query_round_trip_witness :
    (tss2_tcti_tabrmd_receive exDecls { exWorld with avail := exFrame } (some exReceive)
      (some 0) none 0).rc = TSS2_RC.SUCCESS ∧
    (tss2_tcti_tabrmd_receive exDecls { exWorld with avail := exFrame } (some exReceive)
      (some 0) none 0).size = some 12 :=
  match size_query_round_trip exDecls { exWorld with avail := exFrame } exReceive 0 exFrame []
      rfl rfl rfl (by decide) (by decide) (by decide) (by decide) (by decide) (by decide)
      (by decide) (by decide) (by decide) (by decide) with
  | ⟨_, hrc, hsz, _⟩ => ⟨hrc, hsz⟩

/-- C7 (the code breaks it): a transmit, a receive answered by a header whose size field is
5, and a second transmit leave the context in state RECEIVE with index 10 and parsed size
5; with the whole 12-byte example frame readable, a size query then skips the header
read, reads nothing and returns success with `*size = 5`, not the 12 of the frame. -/
theorem size_query_after_malformed :
    (run exDecls ⟨some exFresh, exWorld⟩
      [({ exWorld.toPeer with write_ret := 4 }, Call.transmit 4 (some [1, 2, 3, 4])),
       ({ exWorld.toPeer with avail := exMalformed },
          Call.receive (some 10) (some (List.replicate 10 0)) 0),
       ({ exWorld.toPeer with write_ret := 4 },
          Call.transmit 4 (some [1, 2, 3, 4]))]).context = some exStale ∧
    get_response_size exFrame = 12 ∧
    (tss2_tcti_tabrmd_receive exDecls { exWorld with avail := exFrame } (some exStale)
      (some 0) none 0).rc = TSS2_RC.SUCCESS ∧
    (tss2_tcti_tabrmd_receive exDecls { exWorld with avail := exFrame } (some exStale)
      (some 0) none 0).size = some 5 ∧
    (tss2_tcti_tabrmd_receive exDecls { exWorld with avail := exFrame } (some exStale)
      (some 0) none 0).world.avail = exFrame ∧
    (tss2_tcti_tabrmd_receive exDecls { exWorld with avail := exFrame } (some exStale)
      (some 0) none 0).world.trace = [IOEvent.poll 3 0] := by
  refine ⟨?_, ?_, ?_, ?_, ?_, ?_⟩ <;> decide

/-! ## C6: the receive index and the parsed size -/

/-- C6 (the code breaks it): from a fresh context, a transmit and then a receive to which
the peer answers with a header whose size field is 5 leave state TRANSMIT with receive
index 10 above the parsed size 5; after the next transmit, a receive with 20 bytes
readable moves the index on to 30. -/
theorem index_exceeds_size_after_malformed :
    (run exDecls ⟨some exFresh, exWorld⟩
      [({ exWorld.toPeer with write_ret := 4 }, Call.transmit 4 (some [1, 2, 3, 4])),
       ({ exWorld.toPeer with avail := exMalformed },
          Call.receive (some 10) (some (List.replicate 10 0)) 0)]).context.map
      (fun c => (c.state, c.index, c.header.size))
      = some (tcti_tabrmd_state.TRANSMIT, 10, 5) ∧
    (run exDecls ⟨some exFresh, exWorld⟩
      [({ exWorld.toPeer with write_ret := 4 }, Call.transmit 4 (some [1, 2, 3, 4])),
       ({ exWorld.toPeer with avail := exMalformed },
          Call.receive (some 10) (some (List.replicate 10 0)) 0),
       ({ exWorld.toPeer with write_ret := 4 }, Call.transmit 4 (some [1, 2, 3, 4])),
       ({ exWorld.toPeer with avail := List.replicate 20 0 },
          Call.receive (some 64) (some (List.replicate 64 0)) 0)]).context.map
      (fun c => (c.state, c.index, c.header.size))
      = some (tcti_tabrmd_state.RECEIVE, 30, 5) := by
  decide

/-! ## C10: FINAL is terminal -/

theorem step_final (K : Decls) (s : Sys) (pc : Peer × Call)
    (hfin : s.context.map (·.state) = some tcti_tabrmd_state.FINAL)
    (hnf : pc.2.isFinalize = false) :
    (step K s pc).context = s.context ∧ (step K s pc).world.trace = s.world.trace := by
  obtain ⟨p, c⟩ := pc
  obtain ⟨context, world⟩ := s
  cases context with
  | none => simp at hfin
  | some ctx =>
    have hst : ctx.state = tcti_tabrmd_state.FINAL := by simpa using hfin
    cases c with
    | transmit size command =>
      cases command with
      | none => exact ⟨rfl, rfl⟩
      | some cmd =>
        simp only [step, tss2_tcti_tabrmd_transmit, hst]
        split_ifs <;> first | exact ⟨rfl, rfl⟩ | contradiction
    | receive size response timeout =>
      cases size with
      | none => exact ⟨rfl, rfl⟩
      | some sz =>
        simp only [step, tss2_tcti_tabrmd_receive, hst]
        split_ifs <;> first | exact ⟨rfl, rfl⟩ | contradiction
    | cancel =>
      simp only [step, tss2_tcti_tabrmd_cancel, hst]
      split_ifs <;> first | exact ⟨rfl, rfl⟩ | contradiction
    | set_locality locality =>
      simp only [step, tss2_tcti_tabrmd_set_locality, hst]
      split_ifs <;> first | exact ⟨rfl, rfl⟩ | contradiction
    | finalize => simp [Call.isFinalize] at hnf

/-- C10: `tss2_tcti_tabrmd_finalize` on a non-null context in any state leaves the state
FINAL; and from a context in state FINAL every sequence of later transmit, receive,
cancel and set_locality calls, with any arguments and any peer, leaves the context as it
is (state FINAL) and adds no call to the trace: no read, write, poll or control call. -/
theorem final_is_terminal (K : Decls) (w : World) (ctx : Ctx) (s : Sys)
    (calls : List (Peer × Call))
    (hfin : s.context.map (·.state) = some tcti_tabrmd_state.FINAL)
    (hnf : ∀ pc ∈ calls, pc.2.isFinalize = false) :
    (tss2_tcti_tabrmd_finalize w (some ctx)).1.map (·.state)
      = some tcti_tabrmd_state.FINAL ∧
    (run K s calls).context = s.context ∧
    (run K s calls).world.trace = s.world.trace := by
  constructor
  · simp only [tss2_tcti_tabrmd_finalize]
    split
    · rfl
    · split_ifs <;> rfl
  · induction calls generalizing s with
    | nil => exact ⟨rfl, rfl⟩
    | cons pc rest ih =>
      obtain ⟨h1, h2⟩ := step_final K s pc hfin (hnf pc (by simp))
      have := ih (step K s pc) (by rw [h1]; exact hfin)
        (fun q hq => hnf q (List.mem_cons_of_mem _ hq))
      simp only [run, List.foldl] at this ⊢
      rw [this.1, this.2, h1, h2]
      exact ⟨rfl, rfl⟩

/-- Witness of C10: after finalize, a transmit, a receive, a cancel and a set_locality
change nothing. -/
theorem final_is_terminal_witness :
    (tss2_tcti_tabrmd_finalize exWorld (some exReceive)).1.map (·.state)
      = some tcti_tabrmd_state.FINAL ∧
    (run exDecls
      ⟨(tss2_tcti_tabrmd_finalize exWorld (some exReceive)).1,
        (tss2_tcti_tabrmd_finalize exWorld (some exReceive)).2⟩
      [({ exWorld.toPeer with write_ret := 4 }, Call.transmit 4 (some [1, 2, 3, 4])),
       ({ exWorld.toPeer with avail := exFrame },
          Call.receive (some 12) (some (List.replicate 12 0)) 0),
       (exWorld.toPeer, Call.cancel), (exWorld.toPeer, Call.set_locality 1)]).world.trace
      = (tss2_tcti_tabrmd_finalize exWorld (some exReceive)).2.trace :=
  ⟨(final_is_terminal exDecls exWorld exReceive
      ⟨(tss2_tcti_tabrmd_finalize exWorld (some exReceive)).1,
        (tss2_tcti_tabrmd_finalize exWorld (some exReceive)).2⟩
      [({ exWorld.toPeer with write_ret := 4 }, Call.transmit 4 (some [1, 2, 3, 4])),
       ({ exWorld.toPeer with avail := exFrame },
          Call.receive (some 12) (some (List.replicate 12 0)) 0),
       (exWorld.toPeer, Call.cancel), (exWorld.toPeer, Call.set_locality 1)]
      (by decide) (by decide)).1,
    (final_is_terminal exDecls exWorld exReceive
      ⟨(tss2_tcti_tabrmd_finalize exWorld (some exReceive)).1,
        (tss2_tcti_tabrmd_finalize exWorld (some exReceive)).2⟩
      [({ exWorld.toPeer with write_ret := 4 }, Call.transmit 4 (some [1, 2, 3, 4])),
       ({ exWorld.toPeer with avail := exFrame },
          Call.receive (some 12) (some (List.replicate 12 0)) 0),
       (exWorld.toPeer, Call.cancel), (exWorld.toPeer, Call.set_locality 1)]
      (by decide) (by decide)).2.2⟩

/-! ## C9: the channel fields after establishment -/

/-- C9, as stated, fails: a successful `tss2_tcti_tabrmd_tls_init` on a zeroed context
leaves both the duplex stream and the raw descriptor populated. -/
theorem tls_init_populates_both :
    (tss2_tcti_tabrmd_tls_init exDecls exNet none (some exZero) (some 128) (some exHost) 4433
      none true).rc = some TSS2_RC.SUCCESS ∧
    (tss2_tcti_tabrmd_tls_init exDecls exNet none (some exZero) (some 128) (some exHost) 4433
      none true).context.map (fun c => (c.iostream, c.fd)) = some (some 12, 5) ∧
    (tss2_tcti_tabrmd_tls_init exDecls exNet none (some exZero) (some 128) (some exHost) 4433
      none true).context.map (fun c => (stream_populated c, descriptor_populated c))
      = some (true, true) := by
  decide

theorem init_full_success (K : Decls) (e : BrokerEnv) (ctx : Ctx) (size : Option Nat)
    (bus_type : TCTI_TABRMD_DBUS_TYPE) (bus_name : Option String)
    (h : (tss2_tcti_tabrmd_init_full K e (some ctx) size bus_type bus_name).rc
      = some TSS2_RC.SUCCESS) :
    ∃ fd id, e.fd_list = some [fd] ∧ fd ≠ -1 ∧ e.reply = some id ∧
      (tss2_tcti_tabrmd_init_full K e (some ctx) size bus_type bus_name).context
        = some { init_tcti_data K ctx with proxy := e.proxy, fd := fd, id := id } := by
  obtain ⟨proxy, reply, fd_list, sfr⟩ := e
  cases bus_name with
  | none => simp [tss2_tcti_tabrmd_init_full] at h
  | some name =>
    cases proxy with
    | none => cases bus_type <;> simp [tss2_tcti_tabrmd_init_full] at h
    | some p =>
      cases reply with
      | none => cases bus_type <;> simp [tss2_tcti_tabrmd_init_full] at h
      | some id =>
        cases fd_list with
        | none => cases bus_type <;> simp [tss2_tcti_tabrmd_init_full] at h
        | some fds =>
          rcases fds with _ | ⟨fd, _ | ⟨fd2, tl⟩⟩
          · cases bus_type <;> simp [tss2_tcti_tabrmd_init_full] at h
          · by_cases hfd : fd = -1
            · cases bus_type <;> simp [tss2_tcti_tabrmd_init_full, hfd] at h
            · by_cases hsf : sfr = -1
              · cases bus_type <;> simp [tss2_tcti_tabrmd_init_full, hfd, hsf] at h
              · cases bus_type
                · exact ⟨fd, id, rfl, hfd, rfl, by simp [tss2_tcti_tabrmd_init_full, hfd, hsf]⟩
                · exact ⟨fd, id, rfl, hfd, rfl, by simp [tss2_tcti_tabrmd_init_full, hfd, hsf]⟩
                · simp [tss2_tcti_tabrmd_init_full] at h
          · cases bus_type <;> simp [tss2_tcti_tabrmd_init_full] at h

theorem create_connection_socket (n : NetEnv) (tls_enabled : Bool) (error : Option GErr)
    (hr : (tcti_tabrmd_call_create_connection_tls n tls_enabled error).ret = true) :
    (tcti_tabrmd_call_create_connection_tls n tls_enabled error).socket = n.socket ∧
      n.socket ≠ none := by
  obtain ⟨socket, parses, candidates, enum_error, local_hash, plain, tlsc, hs⟩ := n
  cases socket with
  | none => simp [tcti_tabrmd_call_create_connection_tls] at hr
  | some sock =>
    refine ⟨?_, by simp⟩
    cases hcl : connect_loop candidates [] with
    | mk a tried =>
      cases parses <;> cases a <;> cases local_hash <;> cases tls_enabled <;> cases tlsc <;>
        cases hs <;> simp_all [tcti_tabrmd_call_create_connection_tls]

theorem tls_init_success (K : Decls) (n : NetEnv) (cert : Option Nat) (ctx : Ctx)
    (size : Option Nat) (ip_addr : Option String) (port : Nat) (cert_file : Option String)
    (tls_enabled : Bool)
    (h : (tss2_tcti_tabrmd_tls_init K n cert (some ctx) size ip_addr port cert_file
      tls_enabled).rc = some TSS2_RC.SUCCESS) :
    ∃ conn fd id, n.socket = some fd ∧ fd ≠ -1 ∧
      (tcti_tabrmd_call_create_connection_tls n tls_enabled none).connection = some conn ∧
      (tss2_tcti_tabrmd_tls_init K n cert (some ctx) size ip_addr port cert_file
        tls_enabled).context
        = some { init_tcti_data K ctx with iostream := some conn, fd := fd, id := id } := by
  unfold tss2_tcti_tabrmd_tls_init at h ⊢
  generalize hc : tcti_tabrmd_call_create_connection_tls n tls_enabled none = c at h ⊢
  have hsock : c.ret = true → c.socket = n.socket ∧ n.socket ≠ none := by
    rw [← hc]
    exact create_connection_socket n tls_enabled none
  obtain ⟨ret, connection, socket, cid, error, address, tried⟩ := c
  cases ip_addr with
  | none => simp at h
  | some ip =>
    by_cases hcert : cert_file ≠ none ∧ cert = none
    · simp [hcert] at h
    · cases ret with
      | false => simp [hcert] at h
      | true =>
        cases connection with
        | none => simp [hcert] at h
        | some conn =>
          obtain ⟨hs1, hs2⟩ := hsock rfl
          simp only at hs1
          cases hn : n.socket with
          | none => exact absurd hn hs2
          | some fd =>
            rw [hn] at hs1
            subst hs1
            by_cases hfd : fd = -1
            · simp [hcert, hfd] at h
            · exact ⟨conn, fd, cid.getD 0, rfl, hfd, rfl, by simp [hcert, hfd]⟩

/-- C9, amended: after a successful `tss2_tcti_tabrmd_tls_init` both channel fields are
populated, the duplex stream with the connection and the raw descriptor with the
descriptor of the socket under it (not `-1`); after a successful
`tss2_tcti_tabrmd_init_full` the raw descriptor holds the one descriptor the bus passed
(not `-1`) and, for a context whose stream field was NULL, the stream field is still
NULL. -/
theorem establishment_channel_fields (K : Decls) (e : BrokerEnv) (n : NetEnv)
    (cert : Option Nat) (ctx : Ctx) (size : Option Nat) (bus_type : TCTI_TABRMD_DBUS_TYPE)
    (bus_name ip_addr : Option String) (port : Nat) (cert_file : Option String)
    (tls_enabled : Bool) :
    ((tss2_tcti_tabrmd_init_full K e (some ctx) size bus_type bus_name).rc
        = some TSS2_RC.SUCCESS →
      ∃ ctx1 fd,
        (tss2_tcti_tabrmd_init_full K e (some ctx) size bus_type bus_name).context
          = some ctx1 ∧
        e.fd_list = some [fd] ∧ fd ≠ -1 ∧ ctx1.fd = fd ∧
        (ctx.iostream = none → stream_populated ctx1 = false)) ∧
    ((tss2_tcti_tabrmd_tls_init K n cert (some ctx) size ip_addr port cert_file
        tls_enabled).rc = some TSS2_RC.SUCCESS →
      ∃ ctx1 conn fd,
        (tss2_tcti_tabrmd_tls_init K n cert (some ctx) size ip_addr port cert_file
          tls_enabled).context = some ctx1 ∧
        ctx1.iostream = some conn ∧ stream_populated ctx1 = true ∧
        n.socket = some fd ∧ fd ≠ -1 ∧ ctx1.fd = fd) := by
  constructor
  · intro h
    obtain ⟨fd, id, h1, h2, _, h4⟩ := init_full_success K e ctx size bus_type bus_name h
    refine ⟨_, fd, h4, h1, h2, rfl, ?_⟩
    intro hz
    simp [stream_populated, init_tcti_data, hz]
  · intro h
    obtain ⟨conn, fd, id, h1, h2, _, h4⟩ :=
      tls_init_success K n cert ctx size ip_addr port cert_file tls_enabled h
    exact ⟨_, conn, fd, h4, rfl, rfl, h1, h2, rfl⟩

/-- Witness of the amended C9: both establishment paths succeed on a zeroed context. -/
theorem establishment_channel_fields_witness :
    (∃ ctx1 fd,
      (tss2_tcti_tabrmd_init_full exDecls exBroker (some exZero) (some 128)
        TCTI_TABRMD_DBUS_TYPE.SYSTEM (some exHost)).context = some ctx1 ∧
      exBroker.fd_list = some [fd] ∧ fd ≠ -1 ∧ ctx1.fd = fd ∧
      (exZero.iostream = none → stream_populated ctx1 = false)) ∧
    (∃ ctx1 conn fd,
      (tss2_tcti_tabrmd_tls_init exDecls exNet none (some exZero) (some 128) (some exHost)
        4433 none true).context = some ctx1 ∧
      ctx1.iostream = some conn ∧ stream_populated ctx1 = true ∧
      exNet.socket = some fd ∧ fd ≠ -1 ∧ ctx1.fd = fd) :=
  ⟨(establishment_channel_fields exDecls exBroker exNet none exZero (some 128)
      TCTI_TABRMD_DBUS_TYPE.SYSTEM (some exHost) (some exHost) 4433 none true).1 (by decide),
    (establishment_channel_fields exDecls exBroker exNet none exZero (some 128)
      TCTI_TABRMD_DBUS_TYPE.SYSTEM (some exHost) (some exHost) 4433 none true).2 (by decide)⟩

/-! ## C12: the candidate loop -/

theorem connect_loop_all_fail (cs : List (Nat × Bool)) :
    ∀ tried : List Nat, (∀ p ∈ cs, p.2 = false) →
      connect_loop cs tried = (none, tried ++ cs.map Prod.fst) := by
  induction cs with
  | nil => intro tried _; simp [connect_loop]
  | cons c cs ih =>
    intro tried h
    obtain ⟨a, ok⟩ := c
    have hok : ok = false := h (a, ok) (by simp)
    subst hok
    rw [connect_loop]
    simp only [Bool.false_eq_true, if_false]
    rw [ih _ (fun p hp => h p (List.mem_cons_of_mem _ hp))]
    simp

theorem connect_loop_first_ok (pre : List (Nat × Bool)) (a : Nat) (rest : List (Nat × Bool)) :
    ∀ tried : List Nat, (∀ p ∈ pre, p.2 = false) →
      connect_loop (pre ++ (a, true) :: rest) tried
        = (some a, tried ++ pre.map Prod.fst ++ [a]) := by
  induction pre with
  | nil => intro tried _; simp [connect_loop]
  | cons c pre ih =>
    intro tried h
    obtain ⟨b, ok⟩ := c
    have hok : ok = false := h (b, ok) (by simp)
    subst hok
    rw [List.cons_append, connect_loop]
    simp only [Bool.false_eq_true, if_false]
    rw [ih _ (fun p hp => h p (List.mem_cons_of_mem _ hp))]
    simp

theorem connect_loop_none (cs : List (Nat × Bool)) :
    ∀ tried : List Nat, (connect_loop cs tried).1 = none → ∀ p ∈ cs, p.2 = false := by
  induction cs with
  | nil => intro _ _ p hp; simp at hp
  | cons c cs ih =>
    intro tried h p hp
    obtain ⟨a, ok⟩ := c
    cases ok with
    | true => simp [connect_loop] at h
    | false =>
      rw [connect_loop] at h
      simp only [Bool.false_eq_true, if_false] at h
      rcases List.mem_cons.mp hp with e | e
      · rw [e]
      · exact ih _ h p e

/-- C12: once the socket exists and the address parses, the candidate loop of
`tcti_tabrmd_call_create_connection_tls` tries the candidates in order and stops at the
first one whose connect succeeds: the loop fails (no address, the function returns
FALSE, every candidate tried) exactly when every candidate fails or there is none; when
the candidates are failures `pre`, then a success `a`, then `rest`, it connects to `a`
having tried `pre` and `a` only, the failed attempts leave the caller's error slot as it
was on entry whenever the function returns TRUE, and it does return TRUE when the local
address is there and, with TLS enabled, the TLS connection and handshake succeed. -/
theorem candidate_loop_first_success (n : NetEnv) (tls_enabled : Bool) (error : Option GErr)
    (sock : Int) (hsock : n.socket = some sock) (hparse : n.parses = true) :
    ((tcti_tabrmd_call_create_connection_tls n tls_enabled error).address = none ↔
      ∀ p ∈ n.candidates, p.2 = false) ∧
    ((tcti_tabrmd_call_create_connection_tls n tls_enabled error).address = none →
      (tcti_tabrmd_call_create_connection_tls n tls_enabled error).ret = false ∧
      (tcti_tabrmd_call_create_connection_tls n tls_enabled error).tried
        = n.candidates.map Prod.fst) ∧
    (∀ (pre : List (Nat × Bool)) (a : Nat) (rest : List (Nat × Bool)),
      n.candidates = pre ++ (a, true) :: rest → (∀ p ∈ pre, p.2 = false) →
      (tcti_tabrmd_call_create_connection_tls n tls_enabled error).address = some a ∧
      (tcti_tabrmd_call_create_connection_tls n tls_enabled error).tried
        = pre.map Prod.fst ++ [a] ∧
      ((tcti_tabrmd_call_create_connection_tls n tls_enabled error).ret = true →
        (tcti_tabrmd_call_create_connection_tls n tls_enabled error).error = error) ∧
      (n.local_hash ≠ none →
        (tls_enabled = true → n.tls_conn ≠ none ∧ n.handshake = true) →
        (tcti_tabrmd_call_create_connection_tls n tls_enabled error).ret = true ∧
        (tcti_tabrmd_call_create_connection_tls n tls_enabled error).error = error)) := by
  obtain ⟨socket, parses, candidates, enum_error, local_hash, plain, tlsc, hs⟩ := n
  simp only at hsock hparse
  subst hsock hparse
  have hfail : (∀ p ∈ candidates, p.2 = false) →
      (tcti_tabrmd_call_create_connection_tls
        ⟨some sock, true, candidates, enum_error, local_hash, plain, tlsc, hs⟩ tls_enabled
        error).address = none ∧
      (tcti_tabrmd_call_create_connection_tls
        ⟨some sock, true, candidates, enum_error, local_hash, plain, tlsc, hs⟩ tls_enabled
        error).ret = false ∧
      (tcti_tabrmd_call_create_connection_tls
        ⟨some sock, true, candidates, enum_error, local_hash, plain, tlsc, hs⟩ tls_enabled
        error).tried = candidates.map Prod.fst := by
    intro h
    simp [tcti_tabrmd_call_create_connection_tls, connect_loop_all_fail candidates [] h]
  have hnone : (tcti_tabrmd_call_create_connection_tls
        ⟨some sock, true, candidates, enum_error, local_hash, plain, tlsc, hs⟩ tls_enabled
        error).address = none → ∀ p ∈ candidates, p.2 = false := by
    intro h
    apply connect_loop_none candidates []
    cases hcl : connect_loop candidates [] with
    | mk a tried =>
      cases a with
      | none => rfl
      | some a =>
        exfalso
        cases local_hash <;> cases tls_enabled <;> cases tlsc <;> cases hs <;>
          simp [tcti_tabrmd_call_create_connection_tls, hcl] at h
  refine ⟨⟨hnone, fun h => (hfail h).1⟩, fun h => (hfail (hnone h)).2, ?_⟩
  intro pre a rest hc hpre
  have hcl := connect_loop_first_ok pre a rest [] hpre
  rw [← hc] at hcl
  cases local_hash <;> cases tls_enabled <;> cases tlsc <;> cases hs <;>
    simp [tcti_tabrmd_call_create_connection_tls, hcl]

/-- Witness of C12: the first two candidates fail, the third accepts. -/
theorem candidate_loop_first_success_witness :
    (tcti_tabrmd_call_create_connection_tls exNet true none).address = some 3 ∧
    (tcti_tabrmd_call_create_connection_tls exNet true none).tried = [1, 2, 3] ∧
    (tcti_tabrmd_call_create_connection_tls exNet true none).ret = true ∧
    (tcti_tabrmd_call_create_connection_tls exNet true none).error = none :=
  ⟨((candidate_loop_first_success exNet true none 5 rfl rfl).2.2 [(1, false), (2, false)] 3 []
      rfl (by decide)).1,
    ((candidate_loop_first_success exNet true none 5 rfl rfl).2.2 [(1, false), (2, false)] 3 []
      rfl (by decide)).2.1,
    (((candidate_loop_first_success exNet true none 5 rfl rfl).2.2 [(1, false), (2, false)] 3 []
      rfl (by decide)).2.2.2 (by decide) (by decide)).1,
    (((candidate_loop_first_success exNet true none 5 rfl rfl).2.2 [(1, false), (2, false)] 3 []
      rfl (by decide)).2.2.2 (by decide) (by decide)).2⟩

/-! ## C11: the context after a failed establishment -/

/-- C11, as stated, fails: when the broker call fails, or no candidate address accepts,
establishment returns NO_CONNECTION and the caller's zeroed context has been changed:
its magic, version, state and operation table are those of a usable TRANSMIT-state
context. -/
theorem no_connection_leaves_initialised_context :
    (tss2_tcti_tabrmd_init_full exDecls exBrokerDown (some exZero) (some 128)
      TCTI_TABRMD_DBUS_TYPE.SYSTEM (some exHost)).rc = some TSS2_RC.NO_CONNECTION ∧
    (tss2_tcti_tabrmd_init_full exDecls exBrokerDown (some exZero) (some 128)
      TCTI_TABRMD_DBUS_TYPE.SYSTEM (some exHost)).context ≠ some exZero ∧
    (tss2_tcti_tabrmd_init_full exDecls exBrokerDown (some exZero) (some 128)
      TCTI_TABRMD_DBUS_TYPE.SYSTEM (some exHost)).context.map
        (fun c => (c.magic, c.version, c.state, c.transmit, c.receive))
      = some (exDecls.TSS2_TCTI_TABRMD_MAGIC, exDecls.TSS2_TCTI_TABRMD_VERSION,
          tcti_tabrmd_state.TRANSMIT, some tcti_fn.tss2_tcti_tabrmd_transmit,
          some tcti_fn.tss2_tcti_tabrmd_receive) ∧
    (tss2_tcti_tabrmd_tls_init exDecls exNetDown none (some exZero) (some 128) (some exHost)
      4433 none true).rc = some TSS2_RC.NO_CONNECTION ∧
    (tss2_tcti_tabrmd_tls_init exDecls exNetDown none (some exZero) (some 128) (some exHost)
      4433 none true).context ≠ some exZero ∧
    (tss2_tcti_tabrmd_tls_init exDecls exNetDown none (some exZero) (some 128) (some exHost)
      4433 none true).context.map
        (fun c => (c.magic, c.version, c.state, c.transmit, c.receive))
      = some (exDecls.TSS2_TCTI_TABRMD_MAGIC, exDecls.TSS2_TCTI_TABRMD_VERSION,
          tcti_tabrmd_state.TRANSMIT, some tcti_fn.tss2_tcti_tabrmd_transmit,
          some tcti_fn.tss2_tcti_tabrmd_receive) := by
  refine ⟨?_, ?_, ?_, ?_, ?_, ?_⟩ <;> decide

theorem init_full_fault (K : Decls) (e : BrokerEnv) (ctx : Ctx) (size : Option Nat)
    (bus_type : TCTI_TABRMD_DBUS_TYPE) (bus_name : Option String) (rc : TSS2_RC)
    (h : (tss2_tcti_tabrmd_init_full K e (some ctx) size bus_type bus_name).rc = some rc)
    (hne : rc ≠ TSS2_RC.SUCCESS) :
    (rc = TSS2_RC.BAD_VALUE ∧ (bus_name = none ∨ ∃ v, bus_type = TCTI_TABRMD_DBUS_TYPE.other v) ∧
      (tss2_tcti_tabrmd_init_full K e (some ctx) size bus_type bus_name).context = some ctx) ∨
    (rc = TSS2_RC.NO_CONNECTION ∧ e.reply = none ∧
      (tss2_tcti_tabrmd_init_full K e (some ctx) size bus_type bus_name).context
        = some { init_tcti_data K ctx with proxy := e.proxy }) := by
  obtain ⟨proxy, reply, fd_list, sfr⟩ := e
  cases bus_name with
  | none =>
    left
    simp [tss2_tcti_tabrmd_init_full] at h ⊢
    exact h.symm
  | some name =>
    cases bus_type with
    | other v =>
      left
      simp [tss2_tcti_tabrmd_init_full] at h ⊢
      exact h.symm
    | SESSION =>
      right
      cases proxy with
      | none => simp [tss2_tcti_tabrmd_init_full] at h
      | some p =>
        cases reply with
        | none =>
          simp [tss2_tcti_tabrmd_init_full] at h ⊢
          exact h.symm
        | some id =>
          exfalso
          cases fd_list with
          | none => simp [tss2_tcti_tabrmd_init_full] at h
          | some fds =>
            simp only [tss2_tcti_tabrmd_init_full] at h
            split_ifs at h <;> simp_all
    | SYSTEM =>
      right
      cases proxy with
      | none => simp [tss2_tcti_tabrmd_init_full] at h
      | some p =>
        cases reply with
        | none =>
          simp [tss2_tcti_tabrmd_init_full] at h ⊢
          exact h.symm
        | some id =>
          exfalso
          cases fd_list with
          | none => simp [tss2_tcti_tabrmd_init_full] at h
          | some fds =>
            simp only [tss2_tcti_tabrmd_init_full] at h
            split_ifs at h <;> simp_all

theorem tls_init_fault (K : Decls) (n : NetEnv) (cert : Option Nat) (ctx : Ctx)
    (size : Option Nat) (ip_addr : Option String) (port : Nat) (cert_file : Option String)
    (tls_enabled : Bool) (rc : TSS2_RC)
    (h : (tss2_tcti_tabrmd_tls_init K n cert (some ctx) size ip_addr port cert_file
      tls_enabled).rc = some rc)
    (hne : rc ≠ TSS2_RC.SUCCESS) :
    (rc = TSS2_RC.BAD_VALUE ∧ ip_addr = none ∧
      (tss2_tcti_tabrmd_tls_init K n cert (some ctx) size ip_addr port cert_file
        tls_enabled).context = some ctx) ∨
    (rc = TSS2_RC.NO_CONNECTION ∧
      (tcti_tabrmd_call_create_connection_tls n tls_enabled none).ret = false ∧
      (tss2_tcti_tabrmd_tls_init K n cert (some ctx) size ip_addr port cert_file
        tls_enabled).context = some (init_tcti_data K ctx)) := by
  unfold tss2_tcti_tabrmd_tls_init at h ⊢
  generalize tcti_tabrmd_call_create_connection_tls n tls_enabled none = c at h ⊢
  obtain ⟨ret, connection, socket, cid, error, address, tried⟩ := c
  cases ip_addr with
  | none =>
    left
    simp at h ⊢
    exact h.symm
  | some ip =>
    right
    by_cases hcert : cert_file ≠ none ∧ cert = none
    · simp [hcert] at h
    · cases ret with
      | false =>
        simp [hcert] at h ⊢
        exact h.symm
      | true =>
        exfalso
        cases connection with
        | none => simp [hcert] at h
        | some conn =>
          simp only [hcert] at h
          split_ifs at h <;> simp_all

/-- C11, amended: when establishment returns a fault it is BAD_VALUE or NO_CONNECTION.
With BAD_VALUE (a null context and size, a null bus name or host, an unrecognised bus
scope) the caller's context is left unmodified.  With NO_CONNECTION (the broker call
failed, or the socket or TLS connection failed) `init_tcti_data` has already run: the
context's magic, version, state (TRANSMIT) and operation table are set, in the broker
path the proxy too, and every other field is as the caller's memory had it. -/
theorem establishment_fault_context (K : Decls) (e : BrokerEnv) (n : NetEnv)
    (cert : Option Nat) (ctx : Ctx) (size : Option Nat) (bus_type : TCTI_TABRMD_DBUS_TYPE)
    (bus_name ip_addr : Option String) (port : Nat) (cert_file : Option String)
    (tls_enabled : Bool) :
    (tss2_tcti_tabrmd_init_full K e none none bus_type bus_name
      = ⟨some TSS2_RC.BAD_VALUE, none, none⟩) ∧
    (tss2_tcti_tabrmd_tls_init K n cert none none ip_addr port cert_file tls_enabled
      = ⟨some TSS2_RC.BAD_VALUE, none, none⟩) ∧
    (∀ rc, (tss2_tcti_tabrmd_init_full K e (some ctx) size bus_type bus_name).rc = some rc →
      rc ≠ TSS2_RC.SUCCESS →
      (rc = TSS2_RC.BAD_VALUE ∧
        (bus_name = none ∨ ∃ v, bus_type = TCTI_TABRMD_DBUS_TYPE.other v) ∧
        (tss2_tcti_tabrmd_init_full K e (some ctx) size bus_type bus_name).context
          = some ctx) ∨
      (rc = TSS2_RC.NO_CONNECTION ∧ e.reply = none ∧
        (tss2_tcti_tabrmd_init_full K e (some ctx) size bus_type bus_name).context
          = some { init_tcti_data K ctx with proxy := e.proxy })) ∧
    (∀ rc, (tss2_tcti_tabrmd_tls_init K n cert (some ctx) size ip_addr port cert_file
        tls_enabled).rc = some rc →
      rc ≠ TSS2_RC.SUCCESS →
      (rc = TSS2_RC.BAD_VALUE ∧ ip_addr = none ∧
        (tss2_tcti_tabrmd_tls_init K n cert (some ctx) size ip_addr port cert_file
          tls_enabled).context = some ctx) ∨
      (rc = TSS2_RC.NO_CONNECTION ∧
        (tcti_tabrmd_call_create_connection_tls n tls_enabled none).ret = false ∧
        (tss2_tcti_tabrmd_tls_init K n cert (some ctx) size ip_addr port cert_file
          tls_enabled).context = some (init_tcti_data K ctx))) :=
  ⟨rfl, rfl, fun rc h hne => init_full_fault K e ctx size bus_type bus_name rc h hne,
    fun rc h hne => tls_init_fault K n cert ctx size ip_addr port cert_file tls_enabled rc h hne⟩

/-- Witness of the amended C11: the broker call fails, and no candidate accepts. -/
theorem establishment_fault_context_witness :
    (tss2_tcti_tabrmd_init_full exDecls exBrokerDown (some exZero) (some 128)
      TCTI_TABRMD_DBUS_TYPE.SYSTEM (some exHost)).context
      = some { init_tcti_data exDecls exZero with proxy := exBrokerDown.proxy } ∧
    (tss2_tcti_tabrmd_tls_init exDecls exNetDown none (some exZero) (some 128) (some exHost)
      4433 none true).context = some (init_tcti_data exDecls exZero) :=
  ⟨((establishment_fault_context exDecls exBrokerDown exNetDown none exZero (some 128)
      TCTI_TABRMD_DBUS_TYPE.SYSTEM (some exHost) (some exHost) 4433 none true).2.2.1
      TSS2_RC.NO_CONNECTION (by decide) (by decide)).elim
      (fun hb => absurd hb.1 (by decide)) (fun hn => hn.2.2),
    ((establishment_fault_context exDecls exBrokerDown exNetDown none exZero (some 128)
      TCTI_TABRMD_DBUS_TYPE.SYSTEM (some exHost) (some exHost) 4433 none true).2.2.2
      TSS2_RC.NO_CONNECTION (by decide) (by decide)).elim
      (fun hb => absurd hb.1 (by decide)) (fun hn => hn.2.2)⟩

/-! ## C13: the byte count of the body read -/

/-- C13 (the code breaks it): from a fresh context, a transmit, a receive answered by a
header whose size field is 5 (MALFORMED_RESPONSE, state TRANSMIT, index left at 10) and
a second transmit lead to a receive with a 16-byte buffer that issues the body read at
index 10 with the wrapped count `5 - 10 = 2^64 - 5`; with 20 bytes readable it stores
them at offsets 10..29, past the capacity 16. -/
theorem body_read_count_wraps :
    (tss2_tcti_tabrmd_receive exDecls
      { toPeer := { exWorld.toPeer with avail := List.replicate 20 0xff },
        trace := [] }
      (run exDecls ⟨some exFresh, exWorld⟩
        [({ exWorld.toPeer with write_ret := 4 }, Call.transmit 4 (some [1, 2, 3, 4])),
         ({ exWorld.toPeer with avail := exMalformed },
            Call.receive (some 10) (some (List.replicate 10 0)) 0),
         ({ exWorld.toPeer with write_ret := 4 },
            Call.transmit 4 (some [1, 2, 3, 4]))]).context
      (some 16) (some (List.replicate 16 0)) 0).world.trace
      = [IOEvent.poll 3 0, IOEvent.read 10 (2 ^ 64 - 5)] ∧
    (tss2_tcti_tabrmd_receive exDecls
      { toPeer := { exWorld.toPeer with avail := List.replicate 20 0xff },
        trace := [] }
      (run exDecls ⟨some exFresh, exWorld⟩
        [({ exWorld.toPeer with write_ret := 4 }, Call.transmit 4 (some [1, 2, 3, 4])),
         ({ exWorld.toPeer with avail := exMalformed },
            Call.receive (some 10) (some (List.replicate 10 0)) 0),
         ({ exWorld.toPeer with write_ret := 4 },
            Call.transmit 4 (some [1, 2, 3, 4]))]).context
      (some 16) (some (List.replicate 16 0)) 0).response.map List.length = some 30 := by
  decide

/-! ## C14: `*size` after a successful receive -/

/-- C14 (the code breaks it): a header-only frame (size field 10) received in state
RECEIVE into a 12-byte buffer returns success and leaves `*size` at the capacity 12,
not at the frame size 10 that the header parsed to. -/
theorem header_only_leaves_size :
    (tss2_tcti_tabrmd_receive exDecls { exWorld with avail := exHeaderOnly } (some exReceive)
      (some 12) (some (List.replicate 12 0)) 0).rc = TSS2_RC.SUCCESS ∧
    (tss2_tcti_tabrmd_receive exDecls { exWorld with avail := exHeaderOnly } (some exReceive)
      (some 12) (some (List.replicate 12 0)) 0).size = some 12 ∧
    (tss2_tcti_tabrmd_receive exDecls { exWorld with avail := exHeaderOnly } (some exReceive)
      (some 12) (some (List.replicate 12 0)) 0).context.map (fun c => c.header.size)
      = some 10 := by
  decide

end TctiTabrmd
